import Mathlib

/-!
# Process-control bridge: `adb_bridge_jni.cpp` and `process_porting.cpp`

A shallow embedding of the native side of the bridge.  The foreign runtime (the
`JavaVM`), the remote process owner (`AdbBridge`) and the remote log sink
(`LogManager`) are the environment: the runtime is a record saying what `GetEnv`
and `AttachCurrentThread` report for the calling thread, the process owner is a
record of response functions over the history of calls it has received, and
both log sinks are recorded as lists of the records they were given.

Every function threads the program state explicitly and returns in
`Except Fault`.  The only recursion without a structural bound in the source is
the cycle `write_log_to_file → GetJNIEnv → LOGE → write_log_to_file`; it is
embedded with a bound `fuel` on the depth of nested calls, and running out of
it is the fault `stackExhausted`.  A result stated for `fuel + 2` holds for every
bound of at least two nested calls; a result stated for every `fuel` with the
fault `stackExhausted` says that the call returns under no bound.

What the embedding takes from the environment:

* there is one runtime, so the `vm` handed to `JNI_OnLoad` and `JNI_OnUnload` is
  the one `g_jvm` points to; `GetEnv` reports `JNI_OK` for a thread once
  `AttachCurrentThread` has succeeded for it, and keeps reporting what it
  reported otherwise;
* a thread other than the one that ran last is a state with another `vm` field;
* `NewStringUTF` and `GetStringUTFChars` carry a string across unchanged, and
  `FindClass("java/lang/String")` and `NewObjectArray` succeed;
* the text of a log record is the format string of the `LOGD`/`LOGE` call; the
  rendering of its arguments by `snprintf` into `buf[512]` is not modelled;
* reference bookkeeping (`NewGlobalRef`, `DeleteLocalRef`, ...) has no
  counterpart in the state, and `int argc` counts without overflow.
-/

namespace ScrcpyBridge

/-! ## Constants of `jni.h` and `android/log.h` -/

abbrev JNI_OK : Int := 0
abbrev JNI_ERR : Int := -1
abbrev JNI_EDETACHED : Int := -2
abbrev JNI_EVERSION : Int := -3
abbrev JNI_VERSION_1_6 : Int := 0x00010006

abbrev ANDROID_LOG_VERBOSE : Int := 2
abbrev ANDROID_LOG_DEBUG : Int := 3
abbrev ANDROID_LOG_INFO : Int := 4
abbrev ANDROID_LOG_WARN : Int := 5
abbrev ANDROID_LOG_ERROR : Int := 6

/-- The `TAG` of `adb_bridge_jni.cpp`. -/
abbrev TAG_JNI : String := "AdbBridgeJNI"
/-- The `TAG` of `process_porting.cpp`. -/
abbrev TAG_PP : String := "ProcessPorting"

/-! ## Environment -/

/-- The foreign runtime as the calling thread sees it: `status` is what
`GetEnv(JNI_VERSION_1_6)` reports for this thread, `attachRc` is what
`AttachCurrentThread` reports when this thread asks to be attached. -/
structure JavaVM where
  status : Int
  attachRc : Int
deriving DecidableEq, Repr

/-- What `FindClass` and `GetStaticMethodID` find while `JNI_OnLoad` runs. -/
structure ClassTable where
  hasAdbBridge : Bool
  hasExecuteAdbCommand : Bool
  hasWaitProcess : Bool
  hasReadProcessOutput : Bool
  hasTerminateProcess : Bool
  hasCleanupProcess : Bool
  hasLogManager : Bool
  hasWriteRawLogJNI : Bool
deriving DecidableEq, Repr

/-- A call received by the remote process owner (a static method of `AdbBridge`).
The argument array of `executeAdbCommand` is a Java `String[]`, whose elements
may be `null`. -/
inductive OwnerCall where
  | executeAdbCommand (args : List (Option String))
  | waitProcess (pid : Int)
  | readProcessOutput (pid : Int)
  | terminateProcess (pid : Int)
  | cleanupProcess (pid : Int)
deriving DecidableEq, Repr

/-- The remote process owner: what each entry point answers, given the calls it
has received so far (oldest first).  `readProcessOutput` answers `none` for a
`null` string and otherwise the bytes `GetStringUTFChars` yields, without the
terminator. -/
structure RemoteOwner where
  executeAdbCommand : List OwnerCall → List (Option String) → Int
  waitProcess : List OwnerCall → Int → Int
  readProcessOutput : List OwnerCall → Int → Option (List Nat)
  terminateProcess : List OwnerCall → Int → Bool

/-! ## Program state -/

/-- The static variables of `adb_bridge_jni.cpp`; `true` stands for a non-null
pointer or identifier. -/
structure Globals where
  g_jvm : Bool
  g_adb_bridge_class : Bool
  g_execute_method : Bool
  g_wait_method : Bool
  g_read_method : Bool
  g_terminate_method : Bool
  g_cleanup_method : Bool
  g_log_manager_class : Bool
  g_write_raw_log_method : Bool
deriving DecidableEq, Repr

/-- The statics together with the runtime and what the collaborators received. -/
structure State where
  g : Globals
  vm : JavaVM
  /-- calls received by the remote process owner, oldest first -/
  calls : List OwnerCall
  /-- records received by `LogManager.writeRawLogJNI`: level, tag, message -/
  remoteLog : List (String × String × String)
  /-- records given to `__android_log_print`: priority, tag, message -/
  localLog : List (Int × String × String)
  /-- descriptors passed to `close` -/
  closed : List Int
deriving DecidableEq, Repr

/-- Ways in which a run does not return. -/
inductive Fault where
  /-- the nesting of calls exceeded the bound -/
  | stackExhausted
  /-- a read or write outside the object it addresses -/
  | memoryFault
  /-- a JNI call through a null class or method identifier -/
  | jniAbort
deriving DecidableEq, Repr

/-- All statics null, as before `JNI_OnLoad` ever ran. -/
def Globals.null : Globals :=
  ⟨false, false, false, false, false, false, false, false, false⟩

/-- The effect of `__android_log_print(level, tag, "%s", message)`. -/
def android_log_print (level : Int) (tag message : String) (st : State) : State :=
  { st with localLog := st.localLog ++ [(level, tag, message)] }

/-- The remote process owner receives the call `c`. -/
def received (c : OwnerCall) (st : State) : State :=
  { st with calls := st.calls ++ [c] }

/-- The effect of `close(fd)`. -/
def sys_close (fd : Int) (st : State) : State :=
  { st with closed := st.closed ++ [fd] }

/-- The `switch (level)` of `write_log_to_file`. -/
def level_str (level : Int) : String :=
  if level = ANDROID_LOG_VERBOSE then "V"
  else if level = ANDROID_LOG_DEBUG then "D"
  else if level = ANDROID_LOG_INFO then "I"
  else if level = ANDROID_LOG_WARN then "W"
  else if level = ANDROID_LOG_ERROR then "E"
  else "I"

mutual
/-- Embeds `write_log_to_file` (adb_bridge_jni.cpp:277). -/
def write_log_to_file : Nat → Int → String → String → State → Except Fault State
  | 0, _, _, _, _ => .error .stackExhausted
  | fuel + 1, level, tag, message, st =>
    if st.g.g_log_manager_class = false ∨ st.g.g_write_raw_log_method = false then
      .ok (android_log_print level tag message st)
    else
      match GetJNIEnv fuel st with
      | .error e => .error e
      | .ok (false, st1) => .ok (android_log_print level tag message st1)
      | .ok (true, st1) =>
        let st2 := { st1 with remoteLog := st1.remoteLog ++ [(level_str level, tag, message)] }
        .ok (android_log_print level tag message st2)
/-- Embeds `GetJNIEnv` (adb_bridge_jni.cpp:125); the result is `true` for a
non-null `JNIEnv*`. -/
def GetJNIEnv : Nat → State → Except Fault (Bool × State)
  | 0, _ => .error .stackExhausted
  | fuel + 1, st =>
    if st.g.g_jvm = false then
      match write_log_to_file fuel ANDROID_LOG_ERROR TAG_JNI "JVM is null" st with
      | .error e => .error e
      | .ok st1 => .ok (false, st1)
    else
      let status := st.vm.status
      if status = JNI_EDETACHED then
        if st.vm.attachRc ≠ JNI_OK then
          match write_log_to_file fuel ANDROID_LOG_ERROR TAG_JNI
              "Failed to attach thread to JVM" st with
          | .error e => .error e
          | .ok st1 => .ok (false, st1)
        else
          .ok (true, { st with vm := { st.vm with status := JNI_OK } })
      else if status ≠ JNI_OK then
        match write_log_to_file fuel ANDROID_LOG_ERROR TAG_JNI "Failed to get JNIEnv" st with
        | .error e => .error e
        | .ok st1 => .ok (false, st1)
      else
        .ok (true, st)
end

/-- The `LOGD` of both files: format into `buf`, then `write_log_to_file`. -/
def LOGD (fuel : Nat) (tag fmt : String) (st : State) : Except Fault State :=
  write_log_to_file fuel ANDROID_LOG_DEBUG tag fmt st

/-- The `LOGE` of both files. -/
def LOGE (fuel : Nat) (tag fmt : String) (st : State) : Except Fault State :=
  write_log_to_file fuel ANDROID_LOG_ERROR tag fmt st

/-! ## Library initialisation and teardown -/

/-- Embeds `JNI_OnLoad` (adb_bridge_jni.cpp:40).  The `vm` argument is the
runtime `st.vm`; `tbl` says which classes and methods the lookups find. -/
def JNI_OnLoad (fuel : Nat) (tbl : ClassTable) (st : State) : Except Fault (Int × State) := do
  let st ← LOGD fuel TAG_JNI "JNI_OnLoad called" st
  let st := { st with g := { st.g with g_jvm := true } }
  if st.vm.status ≠ JNI_OK then
    let st ← LOGE fuel TAG_JNI "Failed to get JNIEnv" st
    return (JNI_ERR, st)
  let local_class := tbl.hasAdbBridge
  if local_class = false then
    let st ← LOGE fuel TAG_JNI "Failed to find AdbBridge class" st
    return (JNI_ERR, st)
  let st := { st with g := { st.g with g_adb_bridge_class := true } }
  let st := { st with g := { st.g with
    g_execute_method := tbl.hasExecuteAdbCommand
    g_wait_method := tbl.hasWaitProcess
    g_read_method := tbl.hasReadProcessOutput
    g_terminate_method := tbl.hasTerminateProcess
    g_cleanup_method := tbl.hasCleanupProcess } }
  if st.g.g_execute_method = false ∨ st.g.g_wait_method = false ∨ st.g.g_read_method = false
      ∨ st.g.g_terminate_method = false ∨ st.g.g_cleanup_method = false then
    let st ← LOGE fuel TAG_JNI "Failed to get method IDs" st
    return (JNI_ERR, st)
  let local_log_class := tbl.hasLogManager
  let st ←
    if local_log_class ≠ false then do
      let st := { st with g := { st.g with g_log_manager_class := true } }
      let st := { st with g := { st.g with g_write_raw_log_method := tbl.hasWriteRawLogJNI } }
      if st.g.g_write_raw_log_method = false then
        LOGE fuel TAG_JNI "Failed to get LogManager method ID" st
      else
        LOGD fuel TAG_JNI "LogManager JNI initialized successfully" st
    else
      LOGE fuel TAG_JNI "Failed to find LogManager class" st
  let st ← LOGD fuel TAG_JNI "JNI initialized successfully" st
  return (JNI_VERSION_1_6, st)

/-- Embeds `JNI_OnUnload` (adb_bridge_jni.cpp:104); `vm` is the runtime `st.vm`. -/
def JNI_OnUnload (fuel : Nat) (st : State) : Except Fault State := do
  let st ← LOGD fuel TAG_JNI "JNI_OnUnload called" st
  let st :=
    if st.vm.status = JNI_OK then
      let st :=
        if st.g.g_adb_bridge_class ≠ false then
          { st with g := { st.g with g_adb_bridge_class := false } }
        else st
      if st.g.g_log_manager_class ≠ false then
        { st with g := { st.g with g_log_manager_class := false } }
      else st
    else st
  return { st with g := { st.g with g_jvm := false } }

/-! ## Process Control Facade (`adb_bridge_jni.cpp`) -/

/-- The loop `while (argv[argc + 1] != nullptr) argc++`, run over the entries
that follow `argv[0]` up to the null terminator. -/
def count_args : List String → Nat → Nat
  | [], argc => argc
  | _ :: rest, argc => count_args rest (argc + 1)

/-- The loop `for (int i = 0; i < argc; i++)` of `adb_execute_command`; the first
argument is the number of iterations left, `argc - i`. -/
def fill_args (fuel : Nat) (argv : List String) :
    Nat → Nat → List (Option String) → State → Except Fault (List (Option String) × State)
  | 0, _, args_array, st => .ok (args_array, st)
  | n + 1, i, args_array, st =>
    let arg := argv[i + 1]?
    let args_array := args_array.set i arg
    match LOGD fuel TAG_JNI "arg[%d]: %s" st with
    | .error e => .error e
    | .ok st1 => fill_args fuel argv n (i + 1) args_array st1

/-- Embeds `adb_execute_command` (adb_bridge_jni.cpp:152).  `argv` lists the
entries before the null terminator, `pid` is the value `*pid` holds on entry;
the result is the return value and the value of `*pid` on return. -/
def adb_execute_command (fuel : Nat) (owner : RemoteOwner) (argv : List String) (pid : Int)
    (st : State) : Except Fault ((Int × Int) × State) := do
  let st ← LOGD fuel TAG_JNI "adb_execute_command called" st
  let (env, st) ← GetJNIEnv fuel st
  if env = false then
    let st ← LOGE fuel TAG_JNI "Failed to get JNIEnv" st
    return ((-1, pid), st)
  match argv with
  | [] => .error .memoryFault
  | _ :: rest =>
    let argc := count_args rest 0
    let st ← LOGD fuel TAG_JNI "argc: %d" st
    let args_array : List (Option String) := List.replicate argc none
    let (args_array, st) ← fill_args fuel argv argc 0 args_array st
    if st.g.g_adb_bridge_class = false ∨ st.g.g_execute_method = false then .error .jniAbort
    else
      let result_pid := owner.executeAdbCommand st.calls args_array
      let st := received (.executeAdbCommand args_array) st
      let pid := result_pid
      let st ← LOGD fuel TAG_JNI "Process started with PID: %d" st
      return ((0, pid), st)

/-- Embeds `adb_wait_process` (adb_bridge_jni.cpp:198). -/
def adb_wait_process (fuel : Nat) (owner : RemoteOwner) (pid : Int) (st : State) :
    Except Fault (Int × State) := do
  let st ← LOGD fuel TAG_JNI "adb_wait_process: %d" st
  let (env, st) ← GetJNIEnv fuel st
  if env = false then
    return (-1, st)
  if st.g.g_adb_bridge_class = false ∨ st.g.g_wait_method = false then .error .jniAbort
  else
    let exit_code := owner.waitProcess st.calls pid
    let st := received (.waitProcess pid) st
    let st ← LOGD fuel TAG_JNI "Process %d exited with code: %d" st
    return (exit_code, st)

/-- Conversion of an unsigned value to `int` (two's complement, 32 bits). -/
def toInt32 (n : Nat) : Int :=
  if n % 2 ^ 32 < 2 ^ 31 then ((n % 2 ^ 32 : Nat) : Int) else ((n % 2 ^ 32 : Nat) : Int) - 2 ^ 32

/-- Conversion of an `int` to `size_t` (64 bits). -/
def toSizeT (i : Int) : Nat :=
  (i % 2 ^ 64).toNat

/-- The effect of `memcpy(dst, src, n)` on `dst`, where `dst` and `src` are the
whole objects addressed. -/
def memcpy (dst src : List Nat) (n : Nat) : Except Fault (List Nat) :=
  if n ≤ dst.length ∧ n ≤ src.length then .ok (src.take n ++ dst.drop n)
  else .error .memoryFault

/-- The effect of `buffer[i] = v`. -/
def store (buffer : List Nat) (i : Int) (v : Nat) : Except Fault (List Nat) :=
  if 0 ≤ i ∧ i < buffer.length then .ok (buffer.set i.toNat v)
  else .error .memoryFault

/-- The initialiser of `copy_len` in `adb_read_output`:
`(output_len < buffer_size - 1) ? output_len : (buffer_size - 1)`.  The
subtraction is exact; at `buffer_size = INT_MIN`, where the C expression
overflows, the value is negative like every other value for a negative
`buffer_size`, and the `memcpy` that follows faults. -/
def copy_len (output_len buffer_size : Int) : Int :=
  if output_len < buffer_size - 1 then output_len else buffer_size - 1

/-- Embeds `adb_read_output` (adb_bridge_jni.cpp:215).  `buffer` is the object
the pointer addresses, so its length is the real capacity; the result is the
return value and the buffer on return. -/
def adb_read_output (fuel : Nat) (owner : RemoteOwner) (pid : Int) (buffer : List Nat)
    (buffer_size : Int) (st : State) : Except Fault ((Int × List Nat) × State) := do
  let st ← LOGD fuel TAG_JNI "adb_read_output: %d" st
  let (env, st) ← GetJNIEnv fuel st
  if env = false then
    return ((-1, buffer), st)
  if st.g.g_adb_bridge_class = false ∨ st.g.g_read_method = false then .error .jniAbort
  else
    let output := owner.readProcessOutput st.calls pid
    let st := received (.readProcessOutput pid) st
    match output with
    | none =>
      let st ← LOGD fuel TAG_JNI "No output for PID %d" st
      return ((0, buffer), st)
    | some bytes =>
      let output_str := bytes ++ [0]
      let output_len : Int := toInt32 bytes.length
      let copy_len : Int := copy_len output_len buffer_size
      let buffer ← memcpy buffer output_str (toSizeT copy_len)
      let buffer ← store buffer copy_len 0
      let st ← LOGD fuel TAG_JNI "Read %d bytes from PID %d" st
      return ((copy_len, buffer), st)

/-- Embeds `adb_terminate_process` (adb_bridge_jni.cpp:246). -/
def adb_terminate_process (fuel : Nat) (owner : RemoteOwner) (pid : Int) (st : State) :
    Except Fault (Int × State) := do
  let st ← LOGD fuel TAG_JNI "adb_terminate_process: %d" st
  let (env, st) ← GetJNIEnv fuel st
  if env = false then
    return (-1, st)
  if st.g.g_adb_bridge_class = false ∨ st.g.g_terminate_method = false then .error .jniAbort
  else
    let result := owner.terminateProcess st.calls pid
    let st := received (.terminateProcess pid) st
    return (if result then 0 else -1, st)

/-- Embeds `adb_cleanup_process` (adb_bridge_jni.cpp:262). -/
def adb_cleanup_process (fuel : Nat) (pid : Int) (st : State) : Except Fault State := do
  let st ← LOGD fuel TAG_JNI "adb_cleanup_process: %d" st
  let (env, st) ← GetJNIEnv fuel st
  if env = false then
    return st
  if st.g.g_adb_bridge_class = false ∨ st.g.g_cleanup_method = false then .error .jniAbort
  else
    return received (.cleanupProcess pid) st

/-! ## POSIX-compatibility adapter (`process_porting.cpp`) -/

/-- The loop `while (argv[i] != nullptr)` at the head of `sc_process_execute_p`,
which logs every entry. -/
def log_argv (fuel : Nat) : List String → State → Except Fault State
  | [], st => .ok st
  | _ :: rest, st =>
    match LOGD fuel TAG_PP "argv[%d]: %s" st with
    | .error e => .error e
    | .ok st1 => log_argv fuel rest st1

/-- Embeds `sc_process_execute_p` (process_porting.cpp:35).  `pid` is the value
`*pid` holds on entry; `pout` is `none` for a null pointer and otherwise the
value `*pout` holds; `sys_pipe` is what `pipe(pipe_fd)` does: `none` when it
fails, otherwise the two descriptors.  The result is the return value, `*pid`
and `*pout` on return. -/
def sc_process_execute_p (fuel : Nat) (owner : RemoteOwner) (sys_pipe : Option (Int × Int))
    (argv : List String) (pid : Int) (_flags : Nat) (_pin pout _perr : Option Int)
    (st : State) : Except Fault ((Int × Int × Option Int) × State) := do
  let st ← LOGD fuel TAG_PP "========== sc_process_execute_p ==========" st
  let st ← log_argv fuel argv st
  if argv.head? = none ∨ argv.head? ≠ some "adb" then
    let st ← LOGE fuel TAG_PP "Not an adb command: %s" st
    return ((-1, pid, pout), st)
  let (pout, st) :=
    match pout, sys_pipe with
    | some _, some (rd, wr) => (some rd, sys_close wr st)
    | _, _ => (pout, st)
  let result_pid : Int := 0
  let ((ret, result_pid), st) ← adb_execute_command fuel owner argv result_pid st
  if ret = 0 ∧ result_pid > 0 then
    let pid := result_pid
    let st ← LOGD fuel TAG_PP "Process started with PID: %d" st
    return ((0, pid, pout), st)
  else
    let st ← LOGE fuel TAG_PP "Failed to execute command" st
    return ((-1, pid, pout), st)

/-- Embeds `sc_process_wait` (process_porting.cpp:79). -/
def sc_process_wait (fuel : Nat) (owner : RemoteOwner) (pid : Int) (close : Bool) (st : State) :
    Except Fault (Int × State) := do
  let st ← LOGD fuel TAG_PP "sc_process_wait: pid=%d, close=%d" st
  let (exit_code, st) ← adb_wait_process fuel owner pid st
  let st ← if close then adb_cleanup_process fuel pid st else pure st
  let st ← LOGD fuel TAG_PP "Process %d exited with code: %d" st
  return (exit_code, st)

/-- Embeds `sc_process_terminate` (process_porting.cpp:95). -/
def sc_process_terminate (fuel : Nat) (owner : RemoteOwner) (pid : Int) (st : State) :
    Except Fault (Bool × State) := do
  let st ← LOGD fuel TAG_PP "sc_process_terminate: pid=%d" st
  let (ret, st) ← adb_terminate_process fuel owner pid st
  if ret = 0 then
    let st ← adb_cleanup_process fuel pid st
    return (true, st)
  return (false, st)

/-- Embeds `sc_pipe_read_all_intr` (process_porting.cpp:121).  `intr` is `none`
for a null pointer and otherwise the value of `intr->interrupted`; `data` is the
object the pointer addresses and `len` the `size_t` argument.  The result is the
return value and the buffer on return. -/
def sc_pipe_read_all_intr (fuel : Nat) (owner : RemoteOwner) (intr : Option Bool) (pid : Int)
    (_pipe : Int) (data : List Nat) (len : Nat) (st : State) :
    Except Fault ((Int × List Nat) × State) := do
  let st ← LOGD fuel TAG_PP "sc_pipe_read_all_intr: pid=%d, len=%zu" st
  if intr ≠ none ∧ intr = some true then
    let st ← LOGD fuel TAG_PP "Operation interrupted" st
    return ((-1, data), st)
  let (_, st) ← sc_process_wait fuel owner pid false st
  let ((bytes_read, data), st) ← adb_read_output fuel owner pid data (toInt32 len) st
  let st ← LOGD fuel TAG_PP "Read %d bytes from PID %d" st
  return ((bytes_read, data), st)

/-! ## Predicates on the state -/

/-- The remote log sink is resolved: neither operand of the guard at the head of
`write_log_to_file` is null. -/
def SinkResolved (st : State) : Prop :=
  st.g.g_log_manager_class = true ∧ st.g.g_write_raw_log_method = true

/-- The calling thread can obtain a `JNIEnv`: the connection handle is set and
the thread is attached or can be attached. -/
def ContextAcquirable (st : State) : Prop :=
  st.g.g_jvm = true ∧
    (st.vm.status = JNI_OK ∨ (st.vm.status = JNI_EDETACHED ∧ st.vm.attachRc = JNI_OK))

/-- The boundary is available: a context can be acquired and the class and the
five entry points of the process owner are cached, as after a `JNI_OnLoad` that
returned `JNI_VERSION_1_6`. -/
def BoundaryAvailable (st : State) : Prop :=
  ContextAcquirable st ∧ st.g.g_adb_bridge_class = true ∧ st.g.g_execute_method = true ∧
    st.g.g_wait_method = true ∧ st.g.g_read_method = true ∧ st.g.g_terminate_method = true ∧
    st.g.g_cleanup_method = true

instance (st : State) : Decidable (SinkResolved st) := by
  unfold SinkResolved; infer_instance

instance (st : State) : Decidable (ContextAcquirable st) := by
  unfold ContextAcquirable; infer_instance

instance (st : State) : Decidable (BoundaryAvailable st) := by
  unfold BoundaryAvailable; infer_instance

/-- The state after a `GetJNIEnv` that acquired a context: the calling thread
is attached.  Where no context can be acquired the state is left as it is. -/
def attached (st : State) : State :=
  if ContextAcquirable st then { st with vm := { st.vm with status := JNI_OK } } else st

/-- The state after a log call that reached every sink it could: the local log
alone when the remote sink is unresolved, otherwise the remote sink (through an
acquired context) and then the local log. -/
def logged (level : Int) (tag message : String) (st : State) : State :=
  if st.g.g_log_manager_class = false ∨ st.g.g_write_raw_log_method = false then
    android_log_print level tag message st
  else
    android_log_print level tag message
      { attached st with
        remoteLog := (attached st).remoteLog ++ [(level_str level, tag, message)] }

/-- The text `GetJNIEnv` logs on the path by which it fails. -/
def env_failure_text (st : State) : String :=
  if st.g.g_jvm = false then "JVM is null"
  else if st.vm.status = JNI_EDETACHED then "Failed to attach thread to JVM"
  else "Failed to get JNIEnv"

/-- The statics are as they are before any `JNI_OnLoad`, or as some returning
`JNI_OnUnload` left them: the boundary was never loaded, or was unloaded. -/
def Uninitialized (st : State) : Prop :=
  st.g = Globals.null ∨
    ∃ (fuel : Nat) (st0 st1 : State), JNI_OnUnload fuel st0 = .ok st1 ∧ st.g = st1.g

/-- What `JNI_OnUnload` does to the state after its opening `LOGD`. -/
def unload_tail (st : State) : State :=
  let st :=
    if st.vm.status = JNI_OK then
      let st :=
        if st.g.g_adb_bridge_class ≠ false then
          { st with g := { st.g with g_adb_bridge_class := false } }
        else st
      if st.g.g_log_manager_class ≠ false then
        { st with g := { st.g with g_log_manager_class := false } }
      else st
    else st
  { st with g := { st.g with g_jvm := false } }

/-! ## Concrete environments -/

/-- Before any `JNI_OnLoad`, on a thread the runtime has attached. -/
def never_loaded : State :=
  ⟨Globals.null, ⟨JNI_OK, JNI_OK⟩, [], [], [], []⟩

/-- Every lookup of `JNI_OnLoad` succeeds. -/
def full_table : ClassTable :=
  ⟨true, true, true, true, true, true, true, true⟩

/-- The state in which `JNI_OnLoad`, run on `never_loaded` with `full_table`,
returns `JNI_VERSION_1_6`. -/
def loaded : State :=
  { g := ⟨true, true, true, true, true, true, true, true, true⟩
    vm := ⟨JNI_OK, JNI_OK⟩
    calls := []
    remoteLog := [("D", "AdbBridgeJNI", "LogManager JNI initialized successfully"),
                  ("D", "AdbBridgeJNI", "JNI initialized successfully")]
    localLog := [(3, "AdbBridgeJNI", "JNI_OnLoad called"),
                 (3, "AdbBridgeJNI", "LogManager JNI initialized successfully"),
                 (3, "AdbBridgeJNI", "JNI initialized successfully")]
    closed := [] }

/-- The lookups of `JNI_OnLoad` succeed except for the `LogManager` class. -/
def table_without_sink : ClassTable :=
  ⟨true, true, true, true, true, true, false, false⟩

/-- The state in which `JNI_OnLoad`, run on `never_loaded` with
`table_without_sink`, returns `JNI_VERSION_1_6`: the remote log sink is
unresolved. -/
def loaded_without_sink : State :=
  { g := ⟨true, true, true, true, true, true, true, false, false⟩
    vm := ⟨JNI_OK, JNI_OK⟩
    calls := []
    remoteLog := []
    localLog := [(3, "AdbBridgeJNI", "JNI_OnLoad called"),
                 (6, "AdbBridgeJNI", "Failed to find LogManager class"),
                 (3, "AdbBridgeJNI", "JNI initialized successfully")]
    closed := [] }

/-- The loaded state once the owner has received one `executeAdbCommand`, so that
a mock owner has issued handle 1. -/
def running : State :=
  received (.executeAdbCommand [some "shell", some "echo", some "hi"]) loaded

/-- The state `JNI_OnUnload` leaves when it runs on `loaded`. -/
def unloaded : State :=
  unload_tail (logged ANDROID_LOG_DEBUG TAG_JNI "JNI_OnUnload called" loaded)

/-- The state seen from a native thread that is not attached and that the
runtime refuses to attach. -/
def on_unattachable_thread (st : State) : State :=
  { st with vm := ⟨JNI_EDETACHED, JNI_ERR⟩ }

/-- The state seen from a thread for which `GetEnv` reports `JNI_EVERSION`. -/
def on_unsupported_thread (st : State) : State :=
  { st with vm := ⟨JNI_EVERSION, JNI_OK⟩ }

/-- The number of `executeAdbCommand` calls in a history. -/
def issued : List OwnerCall → Int
  | [] => 0
  | .executeAdbCommand _ :: rest => issued rest + 1
  | _ :: rest => issued rest

/-- A mock process owner: handles are issued in increasing order from 1, every
process exits with code 0, and a handle that was issued and not cleaned up holds
`output` and can be terminated. -/
def mock_owner (output : Option (List Nat)) : RemoteOwner where
  executeAdbCommand calls _ := issued calls + 1
  waitProcess _ _ := 0
  readProcessOutput calls pid :=
    if 1 ≤ pid ∧ pid ≤ issued calls ∧ OwnerCall.cleanupProcess pid ∉ calls then output else none
  terminateProcess calls pid :=
    decide (1 ≤ pid ∧ pid ≤ issued calls ∧ OwnerCall.cleanupProcess pid ∉ calls)

/-! ## The logger and the context -/

theorem attached_of_acquirable (st : State) (h : ContextAcquirable st) :
    attached st = { st with vm := { st.vm with status := JNI_OK } } := by
  unfold attached
  simp [h]

theorem GetJNIEnv_acquirable (fuel : Nat) (st : State) (h : ContextAcquirable st) :
    GetJNIEnv (fuel + 1) st = .ok (true, attached st) := by
  rw [attached_of_acquirable st h]
  obtain ⟨hj, hs⟩ := h
  rw [GetJNIEnv]
  rcases hs with h0 | ⟨hd, ha⟩
  · have : ({ st with vm := { st.vm with status := JNI_OK } } : State) = st := by
      cases st with
      | mk g vm calls remoteLog localLog closed =>
        cases vm with
        | mk status attachRc =>
          simp only at h0
          subst h0
          rfl
    simp [hj, h0, this]
  · simp [hj, hd, ha]

theorem write_log_unresolved (fuel : Nat) (level : Int) (tag message : String) (st : State)
    (h : ¬ SinkResolved st) :
    write_log_to_file (fuel + 1) level tag message st
      = .ok (android_log_print level tag message st) := by
  rw [write_log_to_file]
  have : st.g.g_log_manager_class = false ∨ st.g.g_write_raw_log_method = false := by
    unfold SinkResolved at h
    cases h1 : st.g.g_log_manager_class <;> cases h2 : st.g.g_write_raw_log_method <;> simp_all
  simp [this]

theorem write_log_acquirable (fuel : Nat) (level : Int) (tag message : String) (st : State)
    (h : ContextAcquirable st) :
    write_log_to_file (fuel + 2) level tag message st = .ok (logged level tag message st) := by
  rw [write_log_to_file, GetJNIEnv_acquirable fuel st h]
  unfold logged
  split <;> rfl

theorem LOGD_acquirable (fuel : Nat) (tag fmt : String) (st : State)
    (h : ContextAcquirable st) :
    LOGD (fuel + 2) tag fmt st = .ok (logged ANDROID_LOG_DEBUG tag fmt st) :=
  write_log_acquirable fuel _ tag fmt st h

theorem LOGE_acquirable (fuel : Nat) (tag fmt : String) (st : State)
    (h : ContextAcquirable st) :
    LOGE (fuel + 2) tag fmt st = .ok (logged ANDROID_LOG_ERROR tag fmt st) :=
  write_log_acquirable fuel _ tag fmt st h

theorem LOGD_unresolved (fuel : Nat) (tag fmt : String) (st : State) (h : ¬ SinkResolved st) :
    LOGD (fuel + 1) tag fmt st = .ok (android_log_print ANDROID_LOG_DEBUG tag fmt st) :=
  write_log_unresolved fuel _ tag fmt st h

theorem LOGE_unresolved (fuel : Nat) (tag fmt : String) (st : State) (h : ¬ SinkResolved st) :
    LOGE (fuel + 1) tag fmt st = .ok (android_log_print ANDROID_LOG_ERROR tag fmt st) :=
  write_log_unresolved fuel _ tag fmt st h

/-! ### What a log call and a remote call leave alone -/

@[simp] theorem attached_g (st : State) : (attached st).g = st.g := by
  unfold attached; split <;> rfl
@[simp] theorem attached_calls (st : State) : (attached st).calls = st.calls := by
  unfold attached; split <;> rfl
@[simp] theorem attached_closed (st : State) : (attached st).closed = st.closed := by
  unfold attached; split <;> rfl
@[simp] theorem attached_acquirable (st : State) :
    ContextAcquirable (attached st) ↔ ContextAcquirable st := by
  unfold attached
  split
  · next h => exact ⟨fun _ => h, fun _ => ⟨h.1, Or.inl rfl⟩⟩
  · exact Iff.rfl

@[simp] theorem print_g (l : Int) (t m : String) (st : State) :
    (android_log_print l t m st).g = st.g := rfl
@[simp] theorem print_vm (l : Int) (t m : String) (st : State) :
    (android_log_print l t m st).vm = st.vm := rfl
@[simp] theorem print_calls (l : Int) (t m : String) (st : State) :
    (android_log_print l t m st).calls = st.calls := rfl
@[simp] theorem print_closed (l : Int) (t m : String) (st : State) :
    (android_log_print l t m st).closed = st.closed := rfl
@[simp] theorem print_remoteLog (l : Int) (t m : String) (st : State) :
    (android_log_print l t m st).remoteLog = st.remoteLog := rfl
@[simp] theorem print_acquirable (l : Int) (t m : String) (st : State) :
    ContextAcquirable (android_log_print l t m st) ↔ ContextAcquirable st := Iff.rfl
@[simp] theorem print_resolved (l : Int) (t m : String) (st : State) :
    SinkResolved (android_log_print l t m st) ↔ SinkResolved st := Iff.rfl

@[simp] theorem received_g (c : OwnerCall) (st : State) : (received c st).g = st.g := rfl
@[simp] theorem received_vm (c : OwnerCall) (st : State) : (received c st).vm = st.vm := rfl
@[simp] theorem received_calls (c : OwnerCall) (st : State) :
    (received c st).calls = st.calls ++ [c] := rfl
@[simp] theorem received_closed (c : OwnerCall) (st : State) :
    (received c st).closed = st.closed := rfl
@[simp] theorem received_acquirable (c : OwnerCall) (st : State) :
    ContextAcquirable (received c st) ↔ ContextAcquirable st := Iff.rfl

@[simp] theorem sys_close_g (fd : Int) (st : State) : (sys_close fd st).g = st.g := rfl
@[simp] theorem sys_close_calls (fd : Int) (st : State) :
    (sys_close fd st).calls = st.calls := rfl
@[simp] theorem sys_close_acquirable (fd : Int) (st : State) :
    ContextAcquirable (sys_close fd st) ↔ ContextAcquirable st := Iff.rfl
@[simp] theorem sys_close_resolved (fd : Int) (st : State) :
    SinkResolved (sys_close fd st) ↔ SinkResolved st := Iff.rfl

@[simp] theorem logged_g (l : Int) (t m : String) (st : State) : (logged l t m st).g = st.g := by
  unfold logged; split <;> simp
@[simp] theorem logged_calls (l : Int) (t m : String) (st : State) :
    (logged l t m st).calls = st.calls := by
  unfold logged; split <;> simp
@[simp] theorem logged_closed (l : Int) (t m : String) (st : State) :
    (logged l t m st).closed = st.closed := by
  unfold logged; split <;> simp
@[simp] theorem logged_acquirable (l : Int) (t m : String) (st : State) :
    ContextAcquirable (logged l t m st) ↔ ContextAcquirable st := by
  unfold logged
  split
  · simp
  · rw [print_acquirable]
    exact attached_acquirable st

@[simp] theorem logged_iterate_g (l : Int) (t m : String) (n : Nat) (st : State) :
    ((logged l t m)^[n] st).g = st.g := by
  induction n generalizing st with
  | zero => rfl
  | succ k ih => rw [Function.iterate_succ_apply, ih, logged_g]
@[simp] theorem logged_iterate_calls (l : Int) (t m : String) (n : Nat) (st : State) :
    ((logged l t m)^[n] st).calls = st.calls := by
  induction n generalizing st with
  | zero => rfl
  | succ k ih => rw [Function.iterate_succ_apply, ih, logged_calls]
@[simp] theorem logged_iterate_closed (l : Int) (t m : String) (n : Nat) (st : State) :
    ((logged l t m)^[n] st).closed = st.closed := by
  induction n generalizing st with
  | zero => rfl
  | succ k ih => rw [Function.iterate_succ_apply, ih, logged_closed]
@[simp] theorem logged_iterate_acquirable (l : Int) (t m : String) (n : Nat) (st : State) :
    ContextAcquirable ((logged l t m)^[n] st) ↔ ContextAcquirable st := by
  induction n generalizing st with
  | zero => exact Iff.rfl
  | succ k ih => rw [Function.iterate_succ_apply, ih, logged_acquirable]

/-- With the remote sink unresolved, a failing `GetJNIEnv` logs locally and
returns null. -/
theorem GetJNIEnv_unavailable (fuel : Nat) (st : State) (hs : ¬ SinkResolved st)
    (hc : ¬ ContextAcquirable st) :
    GetJNIEnv (fuel + 2) st
      = .ok (false, android_log_print ANDROID_LOG_ERROR TAG_JNI (env_failure_text st) st) := by
  rw [GetJNIEnv]
  simp only [write_log_unresolved fuel _ _ _ st hs, env_failure_text]
  unfold ContextAcquirable at hc
  by_cases hj : st.g.g_jvm = false
  · simp [hj]
  · have hj' : st.g.g_jvm = true := by simpa using hj
    by_cases hd : st.vm.status = JNI_EDETACHED
    · have ha : st.vm.attachRc ≠ JNI_OK := fun ha => hc ⟨hj', Or.inr ⟨hd, ha⟩⟩
      simp [hj', hd, ha]
    · have h0 : st.vm.status ≠ JNI_OK := fun h0 => hc ⟨hj', Or.inl h0⟩
      simp [hj', hd, h0]

/-- With the remote sink resolved and no context to be had, neither the logger
nor `GetJNIEnv` returns, whatever the bound on the nesting of calls. -/
theorem logger_cycle (st : State) (hs : SinkResolved st) (hc : ¬ ContextAcquirable st) :
    ∀ fuel : Nat,
      (∀ (level : Int) (tag message : String),
        write_log_to_file fuel level tag message st = .error .stackExhausted)
      ∧ GetJNIEnv fuel st = .error .stackExhausted := by
  intro fuel
  induction fuel with
  | zero => exact ⟨fun _ _ _ => by rw [write_log_to_file], by rw [GetJNIEnv]⟩
  | succ n ih =>
    obtain ⟨ihw, ihg⟩ := ih
    refine ⟨fun level tag message => ?_, ?_⟩
    · rw [write_log_to_file, ihg]
      simp [hs.1, hs.2]
    · rw [GetJNIEnv]
      simp only [ihw]
      unfold ContextAcquirable at hc
      by_cases hj : st.g.g_jvm = false
      · simp [hj]
      · have hj' : st.g.g_jvm = true := by simpa using hj
        by_cases hd : st.vm.status = JNI_EDETACHED
        · have ha : st.vm.attachRc ≠ JNI_OK := fun ha => hc ⟨hj', Or.inr ⟨hd, ha⟩⟩
          simp [hj', hd, ha]
        · have h0 : st.vm.status ≠ JNI_OK := fun h0 => hc ⟨hj', Or.inl h0⟩
          simp [hj', hd, h0]

theorem write_log_cycle (fuel : Nat) (level : Int) (tag message : String) (st : State)
    (hs : SinkResolved st) (hc : ¬ ContextAcquirable st) :
    write_log_to_file fuel level tag message st = .error .stackExhausted :=
  (logger_cycle st hs hc fuel).1 level tag message

theorem LOGD_cycle (fuel : Nat) (tag fmt : String) (st : State)
    (hs : SinkResolved st) (hc : ¬ ContextAcquirable st) :
    LOGD fuel tag fmt st = .error .stackExhausted :=
  write_log_cycle fuel _ tag fmt st hs hc

/-! ## The Facade where the boundary is available -/

@[simp] theorem attached_available (st : State) :
    BoundaryAvailable (attached st) ↔ BoundaryAvailable st := by
  simp [BoundaryAvailable]
@[simp] theorem print_available (l : Int) (t m : String) (st : State) :
    BoundaryAvailable (android_log_print l t m st) ↔ BoundaryAvailable st := Iff.rfl
@[simp] theorem received_available (c : OwnerCall) (st : State) :
    BoundaryAvailable (received c st) ↔ BoundaryAvailable st := Iff.rfl
@[simp] theorem sys_close_available (fd : Int) (st : State) :
    BoundaryAvailable (sys_close fd st) ↔ BoundaryAvailable st := Iff.rfl
@[simp] theorem logged_available (l : Int) (t m : String) (st : State) :
    BoundaryAvailable (logged l t m st) ↔ BoundaryAvailable st := by
  simp [BoundaryAvailable]
@[simp] theorem logged_iterate_available (l : Int) (t m : String) (n : Nat) (st : State) :
    BoundaryAvailable ((logged l t m)^[n] st) ↔ BoundaryAvailable st := by
  simp [BoundaryAvailable]

theorem adb_wait_process_available (fuel : Nat) (owner : RemoteOwner) (pid : Int) (st : State)
    (h : BoundaryAvailable st) :
    adb_wait_process (fuel + 2) owner pid st
      = .ok (owner.waitProcess st.calls pid,
          logged ANDROID_LOG_DEBUG TAG_JNI "Process %d exited with code: %d"
            (received (.waitProcess pid)
              (attached (logged ANDROID_LOG_DEBUG TAG_JNI "adb_wait_process: %d" st)))) := by
  obtain ⟨hc, hcls, he, hw, hr, ht, hcl⟩ := h
  unfold adb_wait_process
  simp [LOGD_acquirable, GetJNIEnv_acquirable, hc, bind, Except.bind, pure, Except.pure,
    hcls, hw]

theorem adb_cleanup_process_available (fuel : Nat) (pid : Int) (st : State)
    (h : BoundaryAvailable st) :
    adb_cleanup_process (fuel + 2) pid st
      = .ok (received (.cleanupProcess pid)
          (attached (logged ANDROID_LOG_DEBUG TAG_JNI "adb_cleanup_process: %d" st))) := by
  obtain ⟨hc, hcls, he, hw, hr, ht, hcl⟩ := h
  unfold adb_cleanup_process
  simp [LOGD_acquirable, GetJNIEnv_acquirable, hc, bind, Except.bind, pure, Except.pure,
    hcls, hcl]

theorem adb_terminate_process_available (fuel : Nat) (owner : RemoteOwner) (pid : Int)
    (st : State) (h : BoundaryAvailable st) :
    adb_terminate_process (fuel + 2) owner pid st
      = .ok (if owner.terminateProcess st.calls pid = true then 0 else -1,
          received (.terminateProcess pid)
            (attached (logged ANDROID_LOG_DEBUG TAG_JNI "adb_terminate_process: %d" st))) := by
  obtain ⟨hc, hcls, he, hw, hr, ht, hcl⟩ := h
  unfold adb_terminate_process
  simp [LOGD_acquirable, GetJNIEnv_acquirable, hc, bind, Except.bind, pure, Except.pure,
    hcls, ht]

theorem adb_read_output_none (fuel : Nat) (owner : RemoteOwner) (pid : Int) (buffer : List Nat)
    (buffer_size : Int) (st : State) (h : BoundaryAvailable st)
    (hout : owner.readProcessOutput st.calls pid = none) :
    adb_read_output (fuel + 2) owner pid buffer buffer_size st
      = .ok ((0, buffer),
          logged ANDROID_LOG_DEBUG TAG_JNI "No output for PID %d"
            (received (.readProcessOutput pid)
              (attached (logged ANDROID_LOG_DEBUG TAG_JNI "adb_read_output: %d" st)))) := by
  obtain ⟨hc, hcls, he, hw, hr, ht, hcl⟩ := h
  unfold adb_read_output
  simp [LOGD_acquirable, GetJNIEnv_acquirable, hc, bind, Except.bind, pure, Except.pure,
    hcls, hr, hout]

theorem adb_read_output_some (fuel : Nat) (owner : RemoteOwner) (pid : Int) (buffer : List Nat)
    (buffer_size : Int) (st : State) (bytes : List Nat) (h : BoundaryAvailable st)
    (hout : owner.readProcessOutput st.calls pid = some bytes) :
    adb_read_output (fuel + 2) owner pid buffer buffer_size st
      = (match memcpy buffer (bytes ++ [0])
            (toSizeT (copy_len (toInt32 bytes.length) buffer_size)) with
        | .error e => .error e
        | .ok buffer1 =>
          match store buffer1 (copy_len (toInt32 bytes.length) buffer_size) 0 with
          | .error e => .error e
          | .ok buffer2 =>
            .ok ((copy_len (toInt32 bytes.length) buffer_size, buffer2),
              logged ANDROID_LOG_DEBUG TAG_JNI "Read %d bytes from PID %d"
                (received (.readProcessOutput pid)
                  (attached (logged ANDROID_LOG_DEBUG TAG_JNI "adb_read_output: %d" st))))) := by
  obtain ⟨hc, hcls, he, hw, hr, ht, hcl⟩ := h
  unfold adb_read_output
  simp only [LOGD_acquirable fuel _ _ st hc, bind, Except.bind, pure, Except.pure]
  rw [GetJNIEnv_acquirable (fuel + 1) _ (by simpa using hc)]
  simp only [attached_g, logged_g, hcls, hr, attached_calls, logged_calls, hout]
  simp only [Bool.true_eq_false, or_self, if_false, reduceIte]
  cases memcpy buffer (bytes ++ [0]) (toSizeT (copy_len (toInt32 bytes.length) buffer_size)) with
  | error e => rfl
  | ok b1 =>
    simp only []
    cases store b1 (copy_len (toInt32 bytes.length) buffer_size) 0 with
    | error e => rfl
    | ok b2 =>
      simp [LOGD_acquirable, hc]

theorem count_args_eq (rest : List String) (argc : Nat) :
    count_args rest argc = argc + rest.length := by
  induction rest generalizing argc with
  | nil => simp [count_args]
  | cons a t ih => simp [count_args, ih]; omega

theorem log_argv_acquirable (fuel : Nat) (argv : List String) (st : State)
    (h : ContextAcquirable st) :
    log_argv (fuel + 2) argv st
      = .ok ((logged ANDROID_LOG_DEBUG TAG_PP "argv[%d]: %s")^[argv.length] st) := by
  induction argv generalizing st with
  | nil => rfl
  | cons a t ih =>
    rw [log_argv, LOGD_acquirable fuel _ _ st h]
    simp only []
    rw [ih _ (by simpa using h)]
    rfl

/-- The filling loop stores the entries after `argv[0]`, in order. -/
theorem fill_args_acquirable (fuel : Nat) (a0 : String) (args : List String) :
    ∀ (n i : Nat) (st : State), ContextAcquirable st → i + n = args.length →
      fill_args (fuel + 2) (a0 :: args) n i
          ((args.take i).map some ++ List.replicate n none) st
        = .ok (args.map some, (logged ANDROID_LOG_DEBUG TAG_JNI "arg[%d]: %s")^[n] st) := by
  intro n
  induction n with
  | zero =>
    intro i st _ hi
    have : i = args.length := by omega
    subst this
    simp [fill_args]
  | succ k ih =>
    intro i st hc hi
    have hlt : i < args.length := by omega
    rw [fill_args]
    simp only [LOGD_acquirable fuel _ _ st hc]
    have hset : (List.map some (List.take i args) ++ List.replicate (k + 1) none).set i
          ((a0 :: args)[i + 1]?)
        = List.map some (List.take (i + 1) args) ++ List.replicate k none := by
      have hlen : (List.map some (List.take i args)).length = i := by
        simp [List.length_take]; omega
      rw [List.set_append_right _ _ (by omega)]
      simp only [hlen, Nat.sub_self, List.replicate_succ, List.set_cons_zero]
      rw [List.getElem?_cons_succ, List.getElem?_eq_getElem hlt]
      rw [List.take_succ, List.getElem?_eq_getElem hlt]
      simp only [Option.toList, List.map_append, List.map_cons, List.map_nil, List.append_assoc,
        List.singleton_append]
    rw [hset, ih (i + 1) _ (by simpa using hc) (by omega)]
    rfl

theorem adb_execute_command_available (fuel : Nat) (owner : RemoteOwner) (a0 : String)
    (args : List String) (pid : Int) (st : State) (h : BoundaryAvailable st) :
    adb_execute_command (fuel + 2) owner (a0 :: args) pid st
      = .ok ((0, owner.executeAdbCommand st.calls (args.map some)),
          logged ANDROID_LOG_DEBUG TAG_JNI "Process started with PID: %d"
            (received (.executeAdbCommand (args.map some))
              ((logged ANDROID_LOG_DEBUG TAG_JNI "arg[%d]: %s")^[args.length]
                (logged ANDROID_LOG_DEBUG TAG_JNI "argc: %d"
                  (attached (logged ANDROID_LOG_DEBUG TAG_JNI "adb_execute_command called"
                    st)))))) := by
  obtain ⟨hc, hcls, he, hw, hr, ht, hcl⟩ := h
  have hfill := fill_args_acquirable fuel a0 args args.length 0
  simp only [List.take_zero, List.map_nil, List.nil_append, Nat.zero_add] at hfill
  unfold adb_execute_command
  simp [LOGD_acquirable, GetJNIEnv_acquirable, hc, bind, Except.bind, pure, Except.pure,
    hcls, he, count_args_eq, hfill]

/-! ## The adapter where the boundary is available -/

theorem sc_process_wait_available (fuel : Nat) (owner : RemoteOwner) (pid : Int) (close : Bool)
    (st : State) (h : BoundaryAvailable st) :
    ∃ st', sc_process_wait (fuel + 2) owner pid close st
        = .ok (owner.waitProcess st.calls pid, st')
      ∧ st'.calls
          = st.calls ++ (.waitProcess pid :: if close = true then [.cleanupProcess pid] else [])
      ∧ BoundaryAvailable st' := by
  have hc := h.1
  unfold sc_process_wait
  cases close
  · simp [LOGD_acquirable, adb_wait_process_available, h, hc, bind, Except.bind, pure,
      Except.pure]
  · simp [LOGD_acquirable, adb_wait_process_available, adb_cleanup_process_available, h, hc,
      bind, Except.bind, pure, Except.pure]

theorem sc_process_terminate_available (fuel : Nat) (owner : RemoteOwner) (pid : Int)
    (st : State) (h : BoundaryAvailable st) :
    ∃ st', sc_process_terminate (fuel + 2) owner pid st
        = .ok (owner.terminateProcess st.calls pid, st')
      ∧ st'.calls = st.calls ++ (.terminateProcess pid ::
          if owner.terminateProcess st.calls pid = true then [.cleanupProcess pid] else [])
      ∧ BoundaryAvailable st' := by
  have hc := h.1
  unfold sc_process_terminate
  cases hres : owner.terminateProcess st.calls pid
  · simp [LOGD_acquirable, adb_terminate_process_available, h, hc, bind, Except.bind, pure,
      Except.pure, hres]
  · simp [LOGD_acquirable, adb_terminate_process_available, adb_cleanup_process_available, h,
      hc, bind, Except.bind, pure, Except.pure, hres]

theorem sc_process_execute_p_rejects_acquirable (fuel : Nat) (owner : RemoteOwner)
    (sys_pipe : Option (Int × Int)) (argv : List String) (pid : Int) (flags : Nat)
    (pin pout perr : Option Int) (st : State) (h : ContextAcquirable st)
    (hbad : argv.head? ≠ some "adb") :
    ∃ st', sc_process_execute_p (fuel + 2) owner sys_pipe argv pid flags pin pout perr st
        = .ok ((-1, pid, pout), st')
      ∧ st'.calls = st.calls := by
  unfold sc_process_execute_p
  simp [LOGD_acquirable, LOGE_acquirable, log_argv_acquirable, h, hbad, bind, Except.bind, pure,
    Except.pure]

theorem sc_process_execute_p_available (fuel : Nat) (owner : RemoteOwner)
    (sys_pipe : Option (Int × Int)) (args : List String) (pid : Int) (flags : Nat)
    (pin pout perr : Option Int) (st : State) (h : BoundaryAvailable st) :
    ∃ pout' st',
      sc_process_execute_p (fuel + 2) owner sys_pipe ("adb" :: args) pid flags pin pout perr st
        = .ok ((if 0 < owner.executeAdbCommand st.calls (args.map some) then 0 else -1,
                if 0 < owner.executeAdbCommand st.calls (args.map some)
                  then owner.executeAdbCommand st.calls (args.map some) else pid,
                pout'), st')
      ∧ st'.calls = st.calls ++ [.executeAdbCommand (args.map some)]
      ∧ BoundaryAvailable st' := by
  have hc := h.1
  unfold sc_process_execute_p
  simp only [LOGD_acquirable fuel _ _ st hc, bind, Except.bind, pure, Except.pure]
  rw [log_argv_acquirable fuel _ _ (by simpa using hc)]
  simp only [List.head?_cons, ne_eq, not_true_eq_false, or_self, if_false, reduceIte,
    reduceCtorEq]
  rcases pout with _ | p <;> rcases sys_pipe with _ | ⟨rd, wr⟩ <;>
    by_cases hpos : 0 < owner.executeAdbCommand st.calls (args.map some) <;>
    simp only [LOGD_acquirable, LOGE_acquirable, adb_execute_command_available, h, hc, hpos,
      logged_available, logged_iterate_available, logged_acquirable, logged_iterate_acquirable,
      sys_close_available, sys_close_acquirable, received_available, received_acquirable,
      attached_available, attached_acquirable, logged_calls, logged_iterate_calls,
      sys_close_calls, and_self, if_true, if_false, reduceIte, true_and] <;>
    exact ⟨_, _, rfl, by simp, by simpa using h⟩

/-! ## The Facade and the adapter where no context can be acquired and the
remote log sink is unresolved -/

@[simp] theorem env_failure_text_print (l : Int) (t m : String) (st : State) :
    env_failure_text (android_log_print l t m st) = env_failure_text st := rfl

@[simp] theorem print_iterate_g (l : Int) (t m : String) (n : Nat) (st : State) :
    ((android_log_print l t m)^[n] st).g = st.g := by
  induction n generalizing st with
  | zero => rfl
  | succ k ih => rw [Function.iterate_succ_apply, ih, print_g]
@[simp] theorem print_iterate_vm (l : Int) (t m : String) (n : Nat) (st : State) :
    ((android_log_print l t m)^[n] st).vm = st.vm := by
  induction n generalizing st with
  | zero => rfl
  | succ k ih => rw [Function.iterate_succ_apply, ih, print_vm]
@[simp] theorem print_iterate_calls (l : Int) (t m : String) (n : Nat) (st : State) :
    ((android_log_print l t m)^[n] st).calls = st.calls := by
  induction n generalizing st with
  | zero => rfl
  | succ k ih => rw [Function.iterate_succ_apply, ih, print_calls]
@[simp] theorem print_iterate_acquirable (l : Int) (t m : String) (n : Nat) (st : State) :
    ContextAcquirable ((android_log_print l t m)^[n] st) ↔ ContextAcquirable st := by
  simp [ContextAcquirable]
@[simp] theorem print_iterate_resolved (l : Int) (t m : String) (n : Nat) (st : State) :
    SinkResolved ((android_log_print l t m)^[n] st) ↔ SinkResolved st := by
  simp [SinkResolved]

theorem log_argv_unresolved (fuel : Nat) (argv : List String) (st : State)
    (h : ¬ SinkResolved st) :
    log_argv (fuel + 1) argv st
      = .ok ((android_log_print ANDROID_LOG_DEBUG TAG_PP "argv[%d]: %s")^[argv.length] st) := by
  induction argv generalizing st with
  | nil => rfl
  | cons a t ih =>
    rw [log_argv, LOGD_unresolved fuel _ _ st h]
    simp only []
    rw [ih _ (by simpa using h)]
    rfl

theorem adb_execute_command_unavailable (fuel : Nat) (owner : RemoteOwner) (argv : List String)
    (pid : Int) (st : State) (hs : ¬ SinkResolved st) (hc : ¬ ContextAcquirable st) :
    ∃ st', adb_execute_command (fuel + 2) owner argv pid st = .ok ((-1, pid), st')
      ∧ st'.calls = st.calls ∧ st'.g = st.g ∧ st'.vm = st.vm := by
  unfold adb_execute_command
  simp [LOGD_unresolved, LOGE_unresolved, GetJNIEnv_unavailable, hs, hc, bind, Except.bind, pure,
    Except.pure]

theorem adb_wait_process_unavailable (fuel : Nat) (owner : RemoteOwner) (pid : Int) (st : State)
    (hs : ¬ SinkResolved st) (hc : ¬ ContextAcquirable st) :
    ∃ st', adb_wait_process (fuel + 2) owner pid st = .ok (-1, st')
      ∧ st'.calls = st.calls ∧ st'.g = st.g ∧ st'.vm = st.vm := by
  unfold adb_wait_process
  simp [LOGD_unresolved, GetJNIEnv_unavailable, hs, hc, bind, Except.bind, pure, Except.pure]

theorem adb_read_output_unavailable (fuel : Nat) (owner : RemoteOwner) (pid : Int)
    (buffer : List Nat) (buffer_size : Int) (st : State) (hs : ¬ SinkResolved st)
    (hc : ¬ ContextAcquirable st) :
    ∃ st', adb_read_output (fuel + 2) owner pid buffer buffer_size st = .ok ((-1, buffer), st')
      ∧ st'.calls = st.calls ∧ st'.g = st.g ∧ st'.vm = st.vm := by
  unfold adb_read_output
  simp [LOGD_unresolved, GetJNIEnv_unavailable, hs, hc, bind, Except.bind, pure, Except.pure]

theorem adb_terminate_process_unavailable (fuel : Nat) (owner : RemoteOwner) (pid : Int)
    (st : State) (hs : ¬ SinkResolved st) (hc : ¬ ContextAcquirable st) :
    ∃ st', adb_terminate_process (fuel + 2) owner pid st = .ok (-1, st')
      ∧ st'.calls = st.calls ∧ st'.g = st.g ∧ st'.vm = st.vm := by
  unfold adb_terminate_process
  simp [LOGD_unresolved, GetJNIEnv_unavailable, hs, hc, bind, Except.bind, pure, Except.pure]

theorem adb_cleanup_process_unavailable (fuel : Nat) (pid : Int) (st : State)
    (hs : ¬ SinkResolved st) (hc : ¬ ContextAcquirable st) :
    ∃ st', adb_cleanup_process (fuel + 2) pid st = .ok st'
      ∧ st'.calls = st.calls ∧ st'.g = st.g ∧ st'.vm = st.vm := by
  unfold adb_cleanup_process
  simp [LOGD_unresolved, GetJNIEnv_unavailable, hs, hc, bind, Except.bind, pure, Except.pure]

theorem resolved_congr {st st' : State} (hg : st'.g = st.g) :
    SinkResolved st' ↔ SinkResolved st := by
  unfold SinkResolved
  rw [hg]

theorem acquirable_congr {st st' : State} (hg : st'.g = st.g) (hv : st'.vm = st.vm) :
    ContextAcquirable st' ↔ ContextAcquirable st := by
  unfold ContextAcquirable
  rw [hg, hv]

theorem sc_process_wait_unavailable (fuel : Nat) (owner : RemoteOwner) (pid : Int) (close : Bool)
    (st : State) (hs : ¬ SinkResolved st) (hc : ¬ ContextAcquirable st) :
    ∃ st', sc_process_wait (fuel + 2) owner pid close st = .ok (-1, st')
      ∧ st'.calls = st.calls ∧ st'.g = st.g ∧ st'.vm = st.vm := by
  obtain ⟨s2, e2, c2, g2, v2⟩ := adb_wait_process_unavailable fuel owner pid
    (android_log_print ANDROID_LOG_DEBUG TAG_PP "sc_process_wait: pid=%d, close=%d" st)
    (by simpa using hs) (by simpa using hc)
  have hs2 : ¬ SinkResolved s2 := by rw [resolved_congr g2]; simpa using hs
  have hc2 : ¬ ContextAcquirable s2 := by rw [acquirable_congr g2 v2]; simpa using hc
  obtain ⟨s3, e3, c3, g3, v3⟩ := adb_cleanup_process_unavailable fuel pid s2 hs2 hc2
  have hs3 : ¬ SinkResolved s3 := by rw [resolved_congr g3]; exact hs2
  unfold sc_process_wait
  simp only [LOGD_unresolved (fuel + 1) _ _ st hs, bind, Except.bind, e2]
  cases close
  · simp only [Bool.false_eq_true, if_false, pure, Except.pure, reduceIte,
      LOGD_unresolved (fuel + 1) _ _ s2 hs2]
    exact ⟨_, rfl, by simpa using c2, by simpa using g2, by simpa using v2⟩
  · simp only [if_true, e3, pure, Except.pure, reduceIte, LOGD_unresolved (fuel + 1) _ _ s3 hs3]
    refine ⟨_, rfl, ?_, ?_, ?_⟩
    · simp [c3, c2]
    · simp [g3, g2]
    · simp [v3, v2]

theorem sc_process_terminate_unavailable (fuel : Nat) (owner : RemoteOwner) (pid : Int)
    (st : State) (hs : ¬ SinkResolved st) (hc : ¬ ContextAcquirable st) :
    ∃ st', sc_process_terminate (fuel + 2) owner pid st = .ok (false, st')
      ∧ st'.calls = st.calls ∧ st'.g = st.g ∧ st'.vm = st.vm := by
  obtain ⟨s2, e2, c2, g2, v2⟩ := adb_terminate_process_unavailable fuel owner pid
    (android_log_print ANDROID_LOG_DEBUG TAG_PP "sc_process_terminate: pid=%d" st)
    (by simpa using hs) (by simpa using hc)
  unfold sc_process_terminate
  simp only [LOGD_unresolved (fuel + 1) _ _ st hs, bind, Except.bind, e2]
  simp only [Int.reduceNeg, Int.reduceEq, if_false, pure, Except.pure, reduceIte]
  exact ⟨_, rfl, by simpa using c2, by simpa using g2, by simpa using v2⟩

theorem sc_process_execute_p_unavailable (fuel : Nat) (owner : RemoteOwner)
    (sys_pipe : Option (Int × Int)) (argv : List String) (pid : Int) (flags : Nat)
    (pin pout perr : Option Int) (st : State) (hs : ¬ SinkResolved st)
    (hc : ¬ ContextAcquirable st) :
    ∃ pout' st', sc_process_execute_p (fuel + 2) owner sys_pipe argv pid flags pin pout perr st
        = .ok ((-1, pid, pout'), st')
      ∧ st'.calls = st.calls := by
  unfold sc_process_execute_p
  simp only [LOGD_unresolved (fuel + 1) _ _ st hs, bind, Except.bind]
  rw [log_argv_unresolved (fuel + 1) _ _ (by simpa using hs)]
  simp only []
  by_cases hbad : argv.head? = none ∨ argv.head? ≠ some "adb"
  · rw [if_pos hbad]
    have hs1 : ¬ SinkResolved
        ((android_log_print ANDROID_LOG_DEBUG TAG_PP "argv[%d]: %s")^[argv.length]
          (android_log_print ANDROID_LOG_DEBUG TAG_PP
            "========== sc_process_execute_p ==========" st)) := by
      simpa using hs
    simp only [LOGE_unresolved (fuel + 1) _ _ _ hs1, pure, Except.pure]
    exact ⟨_, _, rfl, by simp⟩
  · rw [if_neg hbad]
    rcases pout with _ | p <;> rcases sys_pipe with _ | ⟨rd, wr⟩ <;> simp only []
    all_goals
      first
      | (obtain ⟨s2, e2, c2, g2, v2⟩ := adb_execute_command_unavailable fuel owner argv 0
          ((android_log_print ANDROID_LOG_DEBUG TAG_PP "argv[%d]: %s")^[argv.length]
            (android_log_print ANDROID_LOG_DEBUG TAG_PP
              "========== sc_process_execute_p ==========" st))
          (by simpa using hs) (by simpa using hc)
         have hs2 : ¬ SinkResolved s2 := by rw [resolved_congr g2]; simpa using hs
         simp only [e2, Int.reduceNeg, Int.reduceEq, false_and, if_false, reduceIte,
           LOGE_unresolved (fuel + 1) _ _ s2 hs2, pure, Except.pure]
         exact ⟨_, _, rfl, by simpa using c2⟩)
      | (obtain ⟨s2, e2, c2, g2, v2⟩ := adb_execute_command_unavailable fuel owner argv 0
          (sys_close wr ((android_log_print ANDROID_LOG_DEBUG TAG_PP "argv[%d]: %s")^[argv.length]
            (android_log_print ANDROID_LOG_DEBUG TAG_PP
              "========== sc_process_execute_p ==========" st)))
          (by simpa using hs) (by simpa using hc)
         have hs2 : ¬ SinkResolved s2 := by rw [resolved_congr g2]; simpa using hs
         simp only [e2, Int.reduceNeg, Int.reduceEq, false_and, if_false, reduceIte,
           LOGE_unresolved (fuel + 1) _ _ s2 hs2, pure, Except.pure]
         exact ⟨_, _, rfl, by simpa using c2⟩)

/-! ## Loading and unloading -/

theorem JNI_OnLoad_loaded : JNI_OnLoad 2 full_table never_loaded = .ok (JNI_VERSION_1_6, loaded) := by
  rfl

theorem JNI_OnLoad_without_sink :
    JNI_OnLoad 2 table_without_sink never_loaded = .ok (JNI_VERSION_1_6, loaded_without_sink) := by
  rfl

theorem JNI_OnUnload_eq (fuel : Nat) (st : State) :
    JNI_OnUnload fuel st
      = (match LOGD fuel TAG_JNI "JNI_OnUnload called" st with
        | .error e => .error e
        | .ok st1 => .ok (unload_tail st1)) := by
  unfold JNI_OnUnload
  cases LOGD fuel TAG_JNI "JNI_OnUnload called" st <;> rfl

theorem unload_tail_jvm (st : State) : (unload_tail st).g.g_jvm = false := rfl

theorem unload_tail_attached (st : State) (h : st.vm.status = JNI_OK) :
    (unload_tail st).g.g_log_manager_class = false := by
  unfold unload_tail
  by_cases ha : st.g.g_adb_bridge_class = false <;>
    by_cases hl : st.g.g_log_manager_class = false <;> simp [h, ha, hl]

theorem unload_tail_unresolved (st : State) (h : ¬ SinkResolved st) :
    ¬ SinkResolved (unload_tail st) := by
  unfold SinkResolved at h ⊢
  unfold unload_tail
  by_cases hst : st.vm.status = JNI_OK <;>
    by_cases ha : st.g.g_adb_bridge_class = false <;>
    by_cases hl : st.g.g_log_manager_class = false <;> simp_all

/-- A `JNI_OnUnload` that returns leaves the connection handle null and the
remote log sink unresolved: where the sink was resolved on entry, the `LOGD` at
the head of the function returns only after acquiring a context, so the
`GetEnv` that follows reports `JNI_OK` and the class reference is cleared. -/
theorem JNI_OnUnload_uninitialized (fuel : Nat) (st0 st1 : State)
    (h : JNI_OnUnload fuel st0 = .ok st1) :
    st1.g.g_jvm = false ∧ ¬ SinkResolved st1 := by
  rw [JNI_OnUnload_eq] at h
  by_cases hs : SinkResolved st0
  · by_cases hc : ContextAcquirable st0
    · rcases fuel with _ | _ | f
      · simp [LOGD, write_log_to_file] at h
      · simp [LOGD, write_log_to_file, GetJNIEnv, hs.1, hs.2] at h
      · rw [LOGD_acquirable f _ _ st0 hc] at h
        simp only [Except.ok.injEq] at h
        subst h
        have hst : (logged ANDROID_LOG_DEBUG TAG_JNI "JNI_OnUnload called" st0).vm.status
            = JNI_OK := by
          unfold logged
          simp [hs.1, hs.2, android_log_print, attached_of_acquirable st0 hc]
        refine ⟨unload_tail_jvm _, fun hres => ?_⟩
        have := unload_tail_attached _ hst
        rw [hres.1] at this
        exact absurd this (by decide)
    · rw [LOGD_cycle fuel _ _ st0 hs hc] at h
      simp at h
  · rcases fuel with _ | f
    · simp [LOGD, write_log_to_file] at h
    · rw [LOGD_unresolved f _ _ st0 hs] at h
      simp only [Except.ok.injEq] at h
      subst h
      exact ⟨unload_tail_jvm _, unload_tail_unresolved _ (by simpa using hs)⟩

/-! ## Copying the output into the buffer -/

theorem toInt32_small (n : Nat) (h : n < 2 ^ 31) : toInt32 n = (n : Int) := by
  unfold toInt32
  have h1 : n % 2 ^ 32 = n := Nat.mod_eq_of_lt (by omega)
  rw [h1, if_pos h]

theorem toSizeT_nat (k : Nat) (h : k < 2 ^ 64) : toSizeT (k : Int) = k := by
  unfold toSizeT
  have : ((k : Int) % 2 ^ 64) = (k : Int) := Int.emod_eq_of_lt (by omega) (by omega)
  rw [this, Int.toNat_ofNat]

theorem copy_len_eq_min (n c : Nat) (hc : 1 ≤ c) :
    copy_len (n : Int) (c : Int) = ((min n (c - 1) : Nat) : Int) := by
  unfold copy_len
  split <;> omega

/-- For a buffer of capacity at least `c ≥ 1` and an output shorter than `2^31`
bytes, the `memcpy` and the store of the terminator stay inside the buffer. -/
theorem copy_in_bounds (bytes buffer : List Nat) (c : Nat) (hc : 1 ≤ c)
    (hcap : c ≤ buffer.length) (hn : bytes.length < 2 ^ 31) :
    ∃ buffer1 buffer2,
      memcpy buffer (bytes ++ [0]) (toSizeT (copy_len (toInt32 bytes.length) (c : Int)))
        = .ok buffer1
      ∧ store buffer1 (copy_len (toInt32 bytes.length) (c : Int)) 0 = .ok buffer2
      ∧ buffer2.length = buffer.length
      ∧ buffer2.take (min bytes.length (c - 1)) = bytes.take (min bytes.length (c - 1))
      ∧ buffer2[min bytes.length (c - 1)]? = some 0
      ∧ buffer2.drop (min bytes.length (c - 1) + 1)
          = buffer.drop (min bytes.length (c - 1) + 1) := by
  rw [toInt32_small _ hn, copy_len_eq_min _ _ hc]
  generalize hk : min bytes.length (c - 1) = k
  have hk1 : k ≤ bytes.length := by omega
  have hk2 : k < c := by omega
  rw [toSizeT_nat k (by omega)]
  have htake : (bytes ++ [0]).take k = bytes.take k := List.take_append_of_le_length hk1
  have hlen1 : (bytes.take k).length = k := by simp [List.length_take]; omega
  have hlen2 : (bytes.take k ++ buffer.drop k).length = buffer.length := by
    rw [List.length_append, hlen1, List.length_drop]; omega
  refine ⟨bytes.take k ++ buffer.drop k, (bytes.take k ++ buffer.drop k).set k 0, ?_, ?_, ?_,
    ?_, ?_, ?_⟩
  · unfold memcpy
    rw [if_pos ⟨by omega, by rw [List.length_append]; simp; omega⟩, htake]
  · unfold store
    rw [if_pos ⟨by omega, by rw [hlen2]; omega⟩]
    simp
  · rw [List.length_set, hlen2]
  · rw [List.set_append_right _ _ (by omega), List.take_append_of_le_length (by omega),
      List.take_of_length_le (by omega)]
  · rw [List.set_append_right _ _ (by omega), hlen1, Nat.sub_self,
      List.getElem?_append_right (by omega), hlen1, Nat.sub_self]
    have : 0 < (buffer.drop k).length := by rw [List.length_drop]; omega
    rw [List.getElem?_set_self this]
  · rw [List.set_append_right _ _ (by omega), hlen1, Nat.sub_self]
    have h1 : (bytes.take k ++ (buffer.drop k).set 0 0).drop (k + 1)
        = ((buffer.drop k).set 0 0).drop 1 := by
      rw [List.drop_append_eq_append_drop, hlen1, List.drop_of_length_le (by omega)]
      simp
    rw [h1]
    cases hd : buffer.drop k with
    | nil =>
      have : (buffer.drop k).length = 0 := by rw [hd]; rfl
      rw [List.length_drop] at this
      omega
    | cons x t =>
      simp only [List.set_cons_zero, List.drop_succ_cons, List.drop_zero]
      have : buffer.drop (k + 1) = (buffer.drop k).drop 1 := by
        rw [List.drop_drop]
      rw [this, hd]
      rfl

theorem adb_read_output_copies (fuel : Nat) (owner : RemoteOwner) (pid : Int)
    (buffer bytes : List Nat) (c : Nat) (st : State) (hav : BoundaryAvailable st)
    (hout : owner.readProcessOutput st.calls pid = some bytes) (hn : bytes.length < 2 ^ 31)
    (hc : 1 ≤ c) (hcap : c ≤ buffer.length) :
    ∃ buffer' st',
      adb_read_output (fuel + 2) owner pid buffer (c : Int) st
        = .ok ((((min bytes.length (c - 1) : Nat) : Int), buffer'), st')
      ∧ buffer'.length = buffer.length
      ∧ buffer'.take (min bytes.length (c - 1)) = bytes.take (min bytes.length (c - 1))
      ∧ buffer'[min bytes.length (c - 1)]? = some 0
      ∧ buffer'.drop (min bytes.length (c - 1) + 1) = buffer.drop (min bytes.length (c - 1) + 1)
      ∧ st'.calls = st.calls ++ [.readProcessOutput pid]
      ∧ BoundaryAvailable st' := by
  obtain ⟨b1, b2, e1, e2, hlen, htake, hterm, hdrop⟩ := copy_in_bounds bytes buffer c hc hcap hn
  rw [adb_read_output_some fuel owner pid buffer (c : Int) st bytes hav hout, e1]
  simp only [e2]
  rw [toInt32_small _ hn, copy_len_eq_min _ _ hc]
  exact ⟨b2, _, rfl, hlen, htake, hterm, hdrop, by simp, by simpa using hav⟩

/-! ## Reading through the adapter -/

theorem sc_pipe_read_all_intr_interrupted (fuel : Nat) (owner : RemoteOwner) (pid pipe : Int)
    (data : List Nat) (len : Nat) (st : State) (h : ContextAcquirable st ∨ ¬ SinkResolved st) :
    ∃ st', sc_pipe_read_all_intr (fuel + 2) owner (some true) pid pipe data len st
        = .ok ((-1, data), st')
      ∧ st'.calls = st.calls := by
  unfold sc_pipe_read_all_intr
  rcases h with hc | hs
  · simp [LOGD_acquirable, hc, bind, Except.bind, pure, Except.pure]
  · simp [LOGD_unresolved (fuel + 1), hs, bind, Except.bind, pure, Except.pure]

theorem sc_pipe_read_all_intr_available (fuel : Nat) (owner : RemoteOwner) (intr : Option Bool)
    (pid pipe : Int) (data : List Nat) (len : Nat) (st : State) (hav : BoundaryAvailable st)
    (hintr : intr = none ∨ intr = some false) (hlen1 : 1 ≤ len) (hlen2 : len < 2 ^ 31)
    (hcap : len ≤ data.length)
    (hout : ∀ s, owner.readProcessOutput (st.calls ++ [.waitProcess pid]) pid = some s →
      s.length < 2 ^ 31) :
    ∃ r data' st',
      sc_pipe_read_all_intr (fuel + 2) owner intr pid pipe data len st = .ok ((r, data'), st')
      ∧ st'.calls = st.calls ++ [.waitProcess pid, .readProcessOutput pid]
      ∧ (match owner.readProcessOutput (st.calls ++ [.waitProcess pid]) pid with
        | none => r = 0 ∧ data' = data
        | some s =>
          r = ((min s.length (len - 1) : Nat) : Int)
          ∧ data'.length = data.length
          ∧ data'.take (min s.length (len - 1)) = s.take (min s.length (len - 1))
          ∧ data'[min s.length (len - 1)]? = some 0) := by
  have hc := hav.1
  have hav1 : BoundaryAvailable
      (logged ANDROID_LOG_DEBUG TAG_PP "sc_pipe_read_all_intr: pid=%d, len=%zu" st) := by
    simpa using hav
  obtain ⟨s2, e2, c2, a2⟩ := sc_process_wait_available fuel owner pid false _ hav1
  simp only [logged_calls, Bool.false_eq_true, if_false, reduceIte] at c2
  have hnot : ¬ (intr ≠ none ∧ intr = some true) := by
    rcases hintr with h | h <;> simp [h]
  unfold sc_pipe_read_all_intr
  simp only [LOGD_acquirable fuel _ _ st hc, bind, Except.bind, hnot, if_false, reduceIte, e2]
  rw [toInt32_small _ hlen2]
  cases hres : owner.readProcessOutput (st.calls ++ [.waitProcess pid]) pid with
  | none =>
    rw [adb_read_output_none fuel owner pid data _ s2 a2 (by rw [c2]; exact hres)]
    simp only []
    rw [LOGD_acquirable fuel _ _ _ (by simpa using a2.1)]
    exact ⟨_, _, _, rfl, by simp [c2], rfl, rfl⟩
  | some s =>
    obtain ⟨b, s3, e3, hl, ht, hz, _, c3, a3⟩ := adb_read_output_copies fuel owner pid data s len
      s2 a2 (by rw [c2]; exact hres) (hout s hres) hlen1 hcap
    rw [e3]
    simp only []
    rw [LOGD_acquirable fuel _ _ _ a3.1]
    exact ⟨_, _, _, rfl, by simp [c3, c2], rfl, hl, ht, hz⟩

theorem sc_pipe_read_all_intr_faults (fuel : Nat) (owner : RemoteOwner) (intr : Option Bool)
    (pid pipe : Int) (data bytes : List Nat) (len : Nat) (st : State)
    (hav : BoundaryAvailable st) (hintr : intr = none ∨ intr = some false)
    (hout : owner.readProcessOutput (st.calls ++ [.waitProcess pid]) pid = some bytes)
    (hneg : copy_len (toInt32 bytes.length) (toInt32 len) < 0) :
    sc_pipe_read_all_intr (fuel + 2) owner intr pid pipe data len st = .error .memoryFault := by
  have hc := hav.1
  have hav1 : BoundaryAvailable
      (logged ANDROID_LOG_DEBUG TAG_PP "sc_pipe_read_all_intr: pid=%d, len=%zu" st) := by
    simpa using hav
  obtain ⟨s2, e2, c2, a2⟩ := sc_process_wait_available fuel owner pid false _ hav1
  simp only [logged_calls, Bool.false_eq_true, if_false, reduceIte] at c2
  have hnot : ¬ (intr ≠ none ∧ intr = some true) := by
    rcases hintr with h | h <;> simp [h]
  unfold sc_pipe_read_all_intr
  simp only [LOGD_acquirable fuel _ _ st hc, bind, Except.bind, hnot, if_false, reduceIte, e2]
  rw [adb_read_output_some fuel owner pid data _ s2 bytes a2 (by rw [c2]; exact hout)]
  cases hm : memcpy data (bytes ++ [0])
      (toSizeT (copy_len (toInt32 bytes.length) (toInt32 len))) with
  | error e =>
    unfold memcpy at hm
    split at hm
    · cases hm
    · cases hm
      rfl
  | ok b1 =>
    have hs : store b1 (copy_len (toInt32 bytes.length) (toInt32 len)) 0
        = .error .memoryFault := by
      unfold store
      rw [if_neg (by omega)]
    simp only [hs]
    rfl

theorem sc_process_execute_p_rejects (fuel : Nat) (owner : RemoteOwner)
    (sys_pipe : Option (Int × Int)) (argv : List String) (pid : Int) (flags : Nat)
    (pin pout perr : Option Int) (st : State) (h : ContextAcquirable st ∨ ¬ SinkResolved st)
    (hbad : argv.head? ≠ some "adb") :
    ∃ st', sc_process_execute_p (fuel + 2) owner sys_pipe argv pid flags pin pout perr st
        = .ok ((-1, pid, pout), st')
      ∧ st'.calls = st.calls := by
  by_cases hc : ContextAcquirable st
  · exact sc_process_execute_p_rejects_acquirable fuel owner sys_pipe argv pid flags pin pout
      perr st hc hbad
  · have hs : ¬ SinkResolved st := h.resolve_left hc
    unfold sc_process_execute_p
    simp only [LOGD_unresolved (fuel + 1) _ _ st hs, bind, Except.bind]
    rw [log_argv_unresolved (fuel + 1) _ _ (by simpa using hs)]
    simp only []
    rw [if_pos (Or.inr hbad)]
    have hs1 : ¬ SinkResolved
        ((android_log_print ANDROID_LOG_DEBUG TAG_PP "argv[%d]: %s")^[argv.length]
          (android_log_print ANDROID_LOG_DEBUG TAG_PP
            "========== sc_process_execute_p ==========" st)) := by
      simpa using hs
    simp only [LOGE_unresolved (fuel + 1) _ _ _ hs1, pure, Except.pure]
    exact ⟨_, rfl, by simp⟩

/-! ## The state in which the logger does not return -/

theorem unattachable_resolved : SinkResolved (on_unattachable_thread loaded) := by
  decide

theorem unattachable_not_acquirable : ¬ ContextAcquirable (on_unattachable_thread loaded) := by
  decide

/-! ## The claims -/

/-- Claim C1 against the code.  First part, the input where the code departs
from the claim: after a complete `JNI_OnLoad`, on a native thread that the
runtime refuses to attach, `sc_process_execute_p` returns nothing for any
`argv`, the rejected ones included, because the `LOGD` at its head never
returns, whatever the bound on the nesting of calls.  Second part: in every
state where a context can be acquired or the remote log sink is unresolved, an
`argv` that is empty or does not start with `adb` gives `-1`, leaves `*pid` and
`*pout` as they were, and the owner receives nothing. -/
theorem sc_process_execute_p_rejection (fuel : Nat) (owner : RemoteOwner)
    (sys_pipe : Option (Int × Int)) (argv : List String) (pid : Int) (flags : Nat)
    (pin pout perr : Option Int) :
    sc_process_execute_p fuel owner sys_pipe argv pid flags pin pout perr
        (on_unattachable_thread loaded)
      = .error .stackExhausted
    ∧ ∀ st : State, (ContextAcquirable st ∨ ¬ SinkResolved st) →
        (argv.head? = none ∨ argv.head? ≠ some "adb") →
        ∃ st', sc_process_execute_p (fuel + 2) owner sys_pipe argv pid flags pin pout perr st
            = .ok ((-1, pid, pout), st')
          ∧ st'.calls = st.calls := by
  refine ⟨?_, fun st h hbad => ?_⟩
  · unfold sc_process_execute_p
    rw [LOGD_cycle fuel _ _ _ unattachable_resolved unattachable_not_acquirable]
    rfl
  · have hbad' : argv.head? ≠ some "adb" := by
      rcases hbad with h0 | h1
      · rw [h0]
        exact fun hh => by cases hh
      · exact h1
    exact sc_process_execute_p_rejects fuel owner sys_pipe argv pid flags pin pout perr st h
      hbad'

/-- Claim C2.  With the boundary available, a remote output `bytes` of length
`n` within the range of the `int output_len`, and a buffer holding at least the
`c ≥ 1` bytes announced: `adb_read_output` returns `min n (c - 1)`, the buffer
keeps its size, its first `min n (c - 1)` bytes are those of the output, the
byte at index `min n (c - 1)` is zero, the bytes after it are untouched, and the
owner received the one `readProcessOutput` call. -/
theorem adb_read_output_truncates (fuel : Nat) (owner : RemoteOwner) (pid : Int)
    (buffer bytes : List Nat) (c : Nat) (st : State) (hav : BoundaryAvailable st)
    (hout : owner.readProcessOutput st.calls pid = some bytes) (hn : bytes.length < 2 ^ 31)
    (hc : 1 ≤ c) (hcap : c ≤ buffer.length) :
    ∃ buffer' st',
      adb_read_output (fuel + 2) owner pid buffer (c : Int) st
        = .ok ((((min bytes.length (c - 1) : Nat) : Int), buffer'), st')
      ∧ buffer'.length = buffer.length
      ∧ buffer'.take (min bytes.length (c - 1)) = bytes.take (min bytes.length (c - 1))
      ∧ buffer'[min bytes.length (c - 1)]? = some 0
      ∧ buffer'.drop (min bytes.length (c - 1) + 1) = buffer.drop (min bytes.length (c - 1) + 1)
      ∧ st'.calls = st.calls ++ [.readProcessOutput pid] := by
  obtain ⟨b, s1, e, h1, h2, h3, h4, h5, _⟩ :=
    adb_read_output_copies fuel owner pid buffer bytes c st hav hout hn hc hcap
  exact ⟨b, s1, e, h1, h2, h3, h4, h5⟩

/-- Witness for C2: an output of 1000 bytes and a capacity of 10 give 9 bytes and
the terminator at index 9. -/
theorem adb_read_output_truncates_witness :
    (BoundaryAvailable running
      ∧ (mock_owner (some (List.replicate 1000 65))).readProcessOutput running.calls 1
          = some (List.replicate 1000 65))
    ∧ ∃ buffer' st',
      adb_read_output 2 (mock_owner (some (List.replicate 1000 65))) 1 (List.replicate 10 255)
          10 running
        = .ok ((9, buffer'), st')
      ∧ buffer'.length = 10
      ∧ buffer'.take 9 = List.replicate 9 65
      ∧ buffer'[9]? = some 0 := by
  have hav : BoundaryAvailable running := by decide
  have hout : (mock_owner (some (List.replicate 1000 65))).readProcessOutput running.calls 1
      = some (List.replicate 1000 65) := by
    simp only [mock_owner]
    rw [if_pos (by decide)]
  refine ⟨⟨hav, hout⟩, ?_⟩
  obtain ⟨b, s1, e, h1, h2, h3, _, _⟩ :=
    adb_read_output_truncates 0 (mock_owner (some (List.replicate 1000 65))) 1
      (List.replicate 10 255) (List.replicate 1000 65) 10 running hav hout
      (by rw [List.length_replicate]; decide) (by decide)
      (by rw [List.length_replicate])
  have hmin : min (List.replicate 1000 65).length (10 - 1) = 9 := by
    rw [List.length_replicate]
    decide
  rw [hmin] at e h2 h3
  refine ⟨b, s1, e, by rw [h1, List.length_replicate], ?_, h3⟩
  rw [h2, List.take_replicate]
  rfl

/-- Claim C3, at the inputs where the code departs from it.  With the boundary
available and the owner holding the two bytes of `hi` for handle 1, a read into a
buffer of length 0 computes `copy_len = -1` and faults on the copy, and so does a
read into a buffer of `2^31 + 16` bytes, whose length becomes the `int`
`-2^31 + 16`. -/
theorem sc_pipe_read_all_intr_overflows (fuel : Nat) :
    copy_len (toInt32 2) (toInt32 0) = -1
    ∧ sc_pipe_read_all_intr (fuel + 2) (mock_owner (some [104, 105])) none 1 0 [] 0 running
        = .error .memoryFault
    ∧ toInt32 (2 ^ 31 + 16) = -2 ^ 31 + 16
    ∧ sc_pipe_read_all_intr (fuel + 2) (mock_owner (some [104, 105])) none 1 0
          (List.replicate (2 ^ 31 + 16) 0) (2 ^ 31 + 16) running
        = .error .memoryFault := by
  have hav : BoundaryAvailable running := by decide
  have hout : (mock_owner (some [104, 105])).readProcessOutput
      (running.calls ++ [.waitProcess 1]) 1 = some [104, 105] := by decide
  refine ⟨by decide, ?_, by decide, ?_⟩
  · exact sc_pipe_read_all_intr_faults fuel _ none 1 0 [] [104, 105] 0 running hav (Or.inl rfl)
      hout (by decide)
  · exact sc_pipe_read_all_intr_faults fuel _ none 1 0 _ [104, 105] (2 ^ 31 + 16) running hav
      (Or.inl rfl) hout (by decide)

/-- Claim C4 against the code.  First part, the input where the code departs
from the claim: after a complete `JNI_OnLoad`, on a native thread that the
runtime refuses to attach, `sc_pipe_read_all_intr` with the interrupt flag set
returns nothing, because the `LOGD` that precedes the test of the flag never
returns.  Second part: in every state where a context can be acquired or the
remote log sink is unresolved, it returns `-1`, the buffer is as it was and the
owner receives nothing. -/
theorem sc_pipe_read_all_intr_interruption (fuel : Nat) (owner : RemoteOwner) (pid pipe : Int)
    (data : List Nat) (len : Nat) :
    sc_pipe_read_all_intr fuel owner (some true) pid pipe data len
        (on_unattachable_thread loaded)
      = .error .stackExhausted
    ∧ ∀ st : State, (ContextAcquirable st ∨ ¬ SinkResolved st) →
        ∃ st', sc_pipe_read_all_intr (fuel + 2) owner (some true) pid pipe data len st
            = .ok ((-1, data), st')
          ∧ st'.calls = st.calls := by
  refine ⟨?_, fun st h => sc_pipe_read_all_intr_interrupted fuel owner pid pipe data len st h⟩
  unfold sc_pipe_read_all_intr
  rw [LOGD_cycle fuel _ _ _ unattachable_resolved unattachable_not_acquirable]
  rfl

/-- Claim C5 against the code.  `loaded` is the state a complete `JNI_OnLoad`
produces, with the remote log sink resolved.  From it, on a thread the runtime
refuses to attach, on a thread for which `GetEnv` reports another error, and
with the connection handle reset (a state no returning `JNI_OnUnload` produces,
see `JNI_OnUnload_uninitialized`), `write_log_to_file` returns nothing for any
record, whatever the bound on the nesting of calls: the `LOGE` inside the
failing `GetJNIEnv` calls `write_log_to_file` again, so no record reaches the
local log either.  The last part says the same of every state in which the
sink is resolved and no context can be acquired. -/
theorem write_log_to_file_never_returns (fuel : Nat) (level : Int) (tag message : String) :
    JNI_OnLoad 2 full_table never_loaded = .ok (JNI_VERSION_1_6, loaded)
    ∧ write_log_to_file fuel level tag message (on_unattachable_thread loaded)
        = .error .stackExhausted
    ∧ write_log_to_file fuel level tag message (on_unsupported_thread loaded)
        = .error .stackExhausted
    ∧ write_log_to_file fuel level tag message
          { loaded with g := { loaded.g with g_jvm := false } }
        = .error .stackExhausted
    ∧ ∀ st : State, SinkResolved st → ¬ ContextAcquirable st →
        write_log_to_file fuel level tag message st = .error .stackExhausted :=
  ⟨JNI_OnLoad_loaded,
    write_log_cycle fuel level tag message _ unattachable_resolved unattachable_not_acquirable,
    write_log_cycle fuel level tag message _ (by decide) (by decide),
    write_log_cycle fuel level tag message _ (by decide) (by decide),
    fun st hs hc => write_log_cycle fuel level tag message st hs hc⟩

/-- Claim C8 against the code.  First part, the input where the code departs
from the claim: after a complete `JNI_OnLoad`, on a native thread that the
runtime refuses to attach (a boundary failure), `sc_process_terminate` does not
return `false` but nothing, because the `LOGD` at its head never returns.
Second part: with the boundary available it returns the boolean the owner
answers to `terminateProcess`, and the owner receives that call followed,
exactly when the answer is `true`, by one `cleanupProcess`; where no context can
be acquired and the remote log sink is unresolved it returns `false` and the
owner receives nothing. -/
theorem sc_process_terminate_result (fuel : Nat) (owner : RemoteOwner) (pid : Int) :
    sc_process_terminate fuel owner pid (on_unattachable_thread loaded)
      = .error .stackExhausted
    ∧ (∀ st : State, BoundaryAvailable st →
        ∃ st', sc_process_terminate (fuel + 2) owner pid st
            = .ok (owner.terminateProcess st.calls pid, st')
          ∧ st'.calls = st.calls ++ (.terminateProcess pid ::
              if owner.terminateProcess st.calls pid = true then [.cleanupProcess pid] else []))
    ∧ (∀ st : State, ¬ ContextAcquirable st → ¬ SinkResolved st →
        ∃ st', sc_process_terminate (fuel + 2) owner pid st = .ok (false, st')
          ∧ st'.calls = st.calls) := by
  refine ⟨?_, fun st hav => ?_, fun st hc hs => ?_⟩
  · unfold sc_process_terminate
    rw [LOGD_cycle fuel _ _ _ unattachable_resolved unattachable_not_acquirable]
    rfl
  · obtain ⟨s, e, c, _⟩ := sc_process_terminate_available fuel owner pid st hav
    exact ⟨s, e, c⟩
  · obtain ⟨s, e, c, _⟩ := sc_process_terminate_unavailable fuel owner pid st hs hc
    exact ⟨s, e, c⟩

theorem uninitialized_unresolved (st : State) (h : Uninitialized st) :
    st.g.g_jvm = false ∧ ¬ SinkResolved st ∧ ¬ ContextAcquirable st := by
  have key : st.g.g_jvm = false ∧ ¬ SinkResolved st := by
    rcases h with h | ⟨fuel, st0, st1, hu, hg⟩
    · unfold SinkResolved
      rw [h]
      exact ⟨rfl, by decide⟩
    · obtain ⟨hj, hs⟩ := JNI_OnUnload_uninitialized fuel st0 st1 hu
      exact ⟨by rw [hg]; exact hj, by rw [resolved_congr hg]; exact hs⟩
  refine ⟨key.1, key.2, fun hc => ?_⟩
  have := hc.1
  rw [key.1] at this
  exact absurd this (by decide)

/-- Claim C6.  When the statics are as before any `JNI_OnLoad` or as a returning
`JNI_OnUnload` left them, the connection handle is null and each operation
returns its sentinel while the owner receives nothing: `adb_execute_command`
and `sc_process_execute_p` return `-1` (and `*pid` keeps its value),
`adb_wait_process` returns `-1`, `adb_read_output` returns `-1` and leaves the
buffer alone, `sc_process_terminate` returns `false`, and `adb_cleanup_process`
returns without a call. -/
theorem facade_uninitialized (fuel : Nat) (owner : RemoteOwner) (sys_pipe : Option (Int × Int))
    (argv : List String) (pid : Int) (flags : Nat) (pin pout perr : Option Int)
    (buffer : List Nat) (buffer_size : Int) (st : State) (h : Uninitialized st) :
    st.g.g_jvm = false
    ∧ (∃ st', adb_execute_command (fuel + 2) owner argv pid st = .ok ((-1, pid), st')
        ∧ st'.calls = st.calls)
    ∧ (∃ pout' st',
        sc_process_execute_p (fuel + 2) owner sys_pipe argv pid flags pin pout perr st
          = .ok ((-1, pid, pout'), st')
        ∧ st'.calls = st.calls)
    ∧ (∃ st', adb_wait_process (fuel + 2) owner pid st = .ok (-1, st') ∧ st'.calls = st.calls)
    ∧ (∃ st', adb_read_output (fuel + 2) owner pid buffer buffer_size st
          = .ok ((-1, buffer), st')
        ∧ st'.calls = st.calls)
    ∧ (∃ st', sc_process_terminate (fuel + 2) owner pid st = .ok (false, st')
        ∧ st'.calls = st.calls)
    ∧ (∃ st', adb_cleanup_process (fuel + 2) pid st = .ok st' ∧ st'.calls = st.calls) := by
  obtain ⟨hj, hs, hc⟩ := uninitialized_unresolved st h
  refine ⟨hj, ?_, ?_, ?_, ?_, ?_, ?_⟩
  · obtain ⟨s, e, c, _⟩ := adb_execute_command_unavailable fuel owner argv pid st hs hc
    exact ⟨s, e, c⟩
  · exact sc_process_execute_p_unavailable fuel owner sys_pipe argv pid flags pin pout perr st
      hs hc
  · obtain ⟨s, e, c, _⟩ := adb_wait_process_unavailable fuel owner pid st hs hc
    exact ⟨s, e, c⟩
  · obtain ⟨s, e, c, _⟩ :=
      adb_read_output_unavailable fuel owner pid buffer buffer_size st hs hc
    exact ⟨s, e, c⟩
  · obtain ⟨s, e, c, _⟩ := sc_process_terminate_unavailable fuel owner pid st hs hc
    exact ⟨s, e, c⟩
  · obtain ⟨s, e, c, _⟩ := adb_cleanup_process_unavailable fuel pid st hs hc
    exact ⟨s, e, c⟩

/-- Witness for C6: the state the library is unloaded into from `loaded`, with a
mock owner that would issue handle 1 and hold output for it. -/
theorem facade_uninitialized_witness :
    (JNI_OnUnload 2 loaded = .ok unloaded ∧ Uninitialized unloaded)
    ∧ unloaded.g.g_jvm = false
    ∧ (∃ st', adb_wait_process 2 (mock_owner (some [104, 105])) 1 unloaded = .ok (-1, st')
        ∧ st'.calls = unloaded.calls)
    ∧ (∃ st', sc_process_terminate 2 (mock_owner (some [104, 105])) 1 unloaded
          = .ok (false, st')
        ∧ st'.calls = unloaded.calls) := by
  have hu : JNI_OnUnload 2 loaded = .ok unloaded := by
    rw [JNI_OnUnload_eq, LOGD_acquirable 0 _ _ loaded (by decide)]
    rfl
  have hun : Uninitialized unloaded := Or.inr ⟨2, loaded, unloaded, hu, rfl⟩
  have h := facade_uninitialized 0 (mock_owner (some [104, 105])) none ["adb", "devices"] 1 0
    none none none [] 0 unloaded hun
  exact ⟨⟨hu, hun⟩, h.1, h.2.2.2.1, h.2.2.2.2.2.1⟩

/-- Claim C7.  With the boundary available and `argv` the string `adb` followed
by `args`, the owner receives exactly one more call, `executeAdbCommand` with
`args` in order and nothing else, and `sc_process_execute_p` returns `0` with
`*pid` set to the handle `h` the owner answered when `h > 0`, and `-1` with
`*pid` as it was when `h ≤ 0`. -/
theorem sc_process_execute_p_marshals (fuel : Nat) (owner : RemoteOwner)
    (sys_pipe : Option (Int × Int)) (args : List String) (pid : Int) (flags : Nat)
    (pin pout perr : Option Int) (st : State) (h : Int) (hav : BoundaryAvailable st)
    (hh : owner.executeAdbCommand st.calls (args.map some) = h) :
    ∃ pout' st',
      sc_process_execute_p (fuel + 2) owner sys_pipe ("adb" :: args) pid flags pin pout perr st
        = .ok ((if 0 < h then 0 else -1, if 0 < h then h else pid, pout'), st')
      ∧ st'.calls = st.calls ++ [.executeAdbCommand (args.map some)] := by
  obtain ⟨p, s1, e, c, _⟩ :=
    sc_process_execute_p_available fuel owner sys_pipe args pid flags pin pout perr st hav
  rw [hh] at e
  exact ⟨p, s1, e, c⟩

/-- Witness for C7: `adb shell echo hi` in the loaded state; the mock owner issues
handle 1. -/
theorem sc_process_execute_p_marshals_witness :
    (BoundaryAvailable loaded
      ∧ (mock_owner none).executeAdbCommand loaded.calls
          (["shell", "echo", "hi"].map some) = 1)
    ∧ ∃ pout' st',
      sc_process_execute_p 2 (mock_owner none) (some (3, 4)) ["adb", "shell", "echo", "hi"] 0 0
          none (some (-1)) none loaded
        = .ok ((0, 1, pout'), st')
      ∧ st'.calls = [.executeAdbCommand [some "shell", some "echo", some "hi"]] := by
  have hav : BoundaryAvailable loaded := by decide
  have hh : (mock_owner none).executeAdbCommand loaded.calls
      (["shell", "echo", "hi"].map some) = 1 := by decide
  exact ⟨⟨hav, hh⟩,
    sc_process_execute_p_marshals 0 (mock_owner none) (some (3, 4)) ["shell", "echo", "hi"] 0 0
      none (some (-1)) none loaded 1 hav hh⟩

/-- Claim C9 as stated fails.  With `closeAfter` true and no context to be had,
`sc_process_wait` returns `-1` and the owner receives neither `waitProcess` nor
`cleanupProcess`: before any `JNI_OnLoad`, and also after a `JNI_OnLoad` that
returned `JNI_VERSION_1_6` without finding `LogManager`, once the owner has
issued handle 1, on a thread the runtime refuses to attach. -/
theorem sc_process_wait_without_remote_cleanup :
    (∃ st', sc_process_wait 2 (mock_owner none) 1 true never_loaded = .ok (-1, st')
      ∧ st'.calls = [])
    ∧ JNI_OnLoad 2 table_without_sink never_loaded = .ok (JNI_VERSION_1_6, loaded_without_sink)
    ∧ (∃ st', sc_process_wait 2 (mock_owner none) 1 true
          (on_unattachable_thread
            (received (.executeAdbCommand [some "shell", some "echo", some "hi"])
              loaded_without_sink))
        = .ok (-1, st')
      ∧ st'.calls = [.executeAdbCommand [some "shell", some "echo", some "hi"]]) :=
  ⟨⟨_, rfl, rfl⟩, JNI_OnLoad_without_sink, ⟨_, rfl, rfl⟩⟩

/-- Claim C9 as amended.  In every state where the boundary is available, or
where no context can be acquired and the remote log sink is unresolved:
`sc_process_wait` returns the exit code `e` that its call of `adb_wait_process`
returned, for both values of `close`.  With the boundary available `e` is the
owner's answer to `waitProcess`, and the owner receives `waitProcess` followed,
exactly when `close` is true, by one `cleanupProcess`; otherwise `e` is `-1` and
the owner receives nothing. -/
theorem sc_process_wait_returns_wait_result (fuel : Nat) (owner : RemoteOwner) (pid : Int)
    (close : Bool) (st : State)
    (h : BoundaryAvailable st ∨ (¬ ContextAcquirable st ∧ ¬ SinkResolved st)) :
    ∃ (e : Int) (s0 s1 st' : State),
      LOGD (fuel + 2) TAG_PP "sc_process_wait: pid=%d, close=%d" st = .ok s0
      ∧ adb_wait_process (fuel + 2) owner pid s0 = .ok (e, s1)
      ∧ sc_process_wait (fuel + 2) owner pid close st = .ok (e, st')
      ∧ e = (if BoundaryAvailable st then owner.waitProcess st.calls pid else -1)
      ∧ st'.calls = st.calls ++
          (if BoundaryAvailable st then
            .waitProcess pid :: (if close = true then [.cleanupProcess pid] else [])
          else []) := by
  by_cases hav : BoundaryAvailable st
  · obtain ⟨s, e, c, _⟩ := sc_process_wait_available fuel owner pid close st hav
    have hw := adb_wait_process_available fuel owner pid
      (logged ANDROID_LOG_DEBUG TAG_PP "sc_process_wait: pid=%d, close=%d" st)
      (by simpa using hav)
    rw [logged_calls] at hw
    exact ⟨_, _, _, s, LOGD_acquirable fuel _ _ st hav.1, hw, e, by rw [if_pos hav],
      by rw [if_pos hav]; exact c⟩
  · obtain ⟨hc, hs⟩ := h.resolve_left hav
    obtain ⟨s, e, c, _⟩ := sc_process_wait_unavailable fuel owner pid close st hs hc
    obtain ⟨s1, e1, _⟩ := adb_wait_process_unavailable fuel owner pid
      (android_log_print ANDROID_LOG_DEBUG TAG_PP "sc_process_wait: pid=%d, close=%d" st)
      (by simpa using hs) (by simpa using hc)
    exact ⟨_, _, s1, s, LOGD_unresolved (fuel + 1) _ _ st hs, e1, e, by rw [if_neg hav],
      by rw [if_neg hav, c]; simp⟩

/-- Witness for the amended C9: handle 1 in the running state, `close` set; the
owner receives `waitProcess 1` and then `cleanupProcess 1`. -/
theorem sc_process_wait_returns_wait_result_witness :
    BoundaryAvailable running
    ∧ ∃ st', sc_process_wait 2 (mock_owner none) 1 true running = .ok (0, st')
      ∧ st'.calls = running.calls ++ [.waitProcess 1, .cleanupProcess 1] := by
  have hav : BoundaryAvailable running := by decide
  obtain ⟨e, _, _, s, _, _, hr, he, c⟩ :=
    sc_process_wait_returns_wait_result 0 (mock_owner none) 1 true running (Or.inl hav)
  rw [if_pos hav] at he c
  subst he
  exact ⟨hav, s, hr, c⟩

/-- Claim C10.  With the boundary available, let the owner answer
`executeAdbCommand` for `adb` followed by `args` with a valid handle `h`.  Then
`sc_process_execute_p` returns `0` with `*pid = h`, and from the state it leaves,
with the interrupt flag clear or the structure absent, a buffer holding at least
the `len` bytes announced (`1 ≤ len < 2^31`) and an output within the range of
`int`, `sc_pipe_read_all_intr` makes the owner receive `waitProcess h` and then
`readProcessOutput h` and nothing else, and returns `0` with the buffer
unchanged when the owner reports no output, and otherwise `min n (len - 1)` with
that many bytes of the output at the head of the buffer and a zero after them,
the buffer keeping its size. -/
theorem execute_wait_read_round_trip (fuel fuel' : Nat) (owner : RemoteOwner)
    (sys_pipe : Option (Int × Int)) (args : List String) (pid : Int) (flags : Nat)
    (pin pout perr : Option Int) (st : State) (h : Int) (intr : Option Bool) (pipe : Int)
    (data : List Nat) (len : Nat) (hav : BoundaryAvailable st)
    (hh : owner.executeAdbCommand st.calls (args.map some) = h) (hpos : 0 < h)
    (hintr : intr = none ∨ intr = some false) (hlen1 : 1 ≤ len) (hlen2 : len < 2 ^ 31)
    (hcap : len ≤ data.length)
    (hout : ∀ s, owner.readProcessOutput
        (st.calls ++ [.executeAdbCommand (args.map some), .waitProcess h]) h = some s →
      s.length < 2 ^ 31) :
    ∃ pout' st1,
      sc_process_execute_p (fuel + 2) owner sys_pipe ("adb" :: args) pid flags pin pout perr st
        = .ok ((0, h, pout'), st1)
      ∧ st1.calls = st.calls ++ [.executeAdbCommand (args.map some)]
      ∧ ∃ r data' st2,
        sc_pipe_read_all_intr (fuel' + 2) owner intr h pipe data len st1
          = .ok ((r, data'), st2)
        ∧ st2.calls = st1.calls ++ [.waitProcess h, .readProcessOutput h]
        ∧ (match owner.readProcessOutput (st1.calls ++ [.waitProcess h]) h with
          | none => r = 0 ∧ data' = data
          | some s =>
            r = ((min s.length (len - 1) : Nat) : Int)
            ∧ data'.length = data.length
            ∧ data'.take (min s.length (len - 1)) = s.take (min s.length (len - 1))
            ∧ data'[min s.length (len - 1)]? = some 0) := by
  obtain ⟨p, s1, e1, c1, a1⟩ :=
    sc_process_execute_p_available fuel owner sys_pipe args pid flags pin pout perr st hav
  rw [hh, if_pos hpos, if_pos hpos] at e1
  refine ⟨p, s1, e1, c1, ?_⟩
  exact sc_pipe_read_all_intr_available fuel' owner intr h pipe data len s1 a1 hintr hlen1 hlen2
    hcap (by rw [c1, List.append_assoc]; exact hout)

/-- Witness for C10: `adb shell echo hi` from the loaded state with a mock owner
holding the three bytes `hi\n`, read into a buffer of three bytes: two bytes and
the terminator. -/
theorem execute_wait_read_round_trip_witness :
    (BoundaryAvailable loaded
      ∧ (mock_owner (some [104, 105, 10])).executeAdbCommand loaded.calls
          (["shell", "echo", "hi"].map some) = 1)
    ∧ ∃ pout' st1,
      sc_process_execute_p 2 (mock_owner (some [104, 105, 10])) (some (3, 4))
          ["adb", "shell", "echo", "hi"] 0 0 none (some (-1)) none loaded
        = .ok ((0, 1, pout'), st1)
      ∧ ∃ data' st2,
        sc_pipe_read_all_intr 2 (mock_owner (some [104, 105, 10])) (some false) 1 3
            [255, 255, 255] 3 st1
          = .ok ((2, data'), st2)
        ∧ st2.calls = [.executeAdbCommand [some "shell", some "echo", some "hi"],
            .waitProcess 1, .readProcessOutput 1]
        ∧ data'.take 2 = [104, 105]
        ∧ data'[2]? = some 0 := by
  have hav : BoundaryAvailable loaded := by decide
  have hh : (mock_owner (some [104, 105, 10])).executeAdbCommand loaded.calls
      (["shell", "echo", "hi"].map some) = 1 := by decide
  have hres : (mock_owner (some [104, 105, 10])).readProcessOutput
      (loaded.calls ++ [.executeAdbCommand (["shell", "echo", "hi"].map some), .waitProcess 1])
      1 = some [104, 105, 10] := by decide
  obtain ⟨p, s1, e1, c1, r, d, s2, e2, c2, hm⟩ :=
    execute_wait_read_round_trip 0 0 (mock_owner (some [104, 105, 10])) (some (3, 4))
      ["shell", "echo", "hi"] 0 0 none (some (-1)) none loaded 1 (some false) 3
      [255, 255, 255] 3 hav hh (by decide) (Or.inr rfl) (by decide) (by decide) (by decide)
      (fun s hs => by
        rw [hres] at hs
        cases hs
        decide)
  have hres1 : (mock_owner (some [104, 105, 10])).readProcessOutput
      (loaded.calls ++ [.executeAdbCommand (["shell", "echo", "hi"].map some)]
        ++ [.waitProcess 1]) 1 = some [104, 105, 10] := by decide
  rw [c1] at hm c2
  rw [hres1] at hm
  obtain ⟨hr, _, ht, hz⟩ := hm
  subst hr
  exact ⟨⟨hav, hh⟩, p, s1, e1, d, s2, e2, by rw [c2]; rfl, ht, hz⟩

end ScrcpyBridge
